import Mathlib

/-!
Shallow embedding of the jirahub synchronization engine
(`jirahub/entities.py`, `jirahub/config.py`, `jirahub/jirahub.py`,
`jirahub/utils.py` and the fence handling of the two formatters in
`jirahub/github.py` and `jirahub/jira.py`), together with theorems
settling the specification claims about it.

Modelling conventions:
* Python `str` is modelled as `List Char` (`Str`), so that slicing,
  concatenation and repetition are ordinary list operations.
* Python `datetime` values are modelled as natural-number clock ticks;
  only their ordering is ever used by the engine.
* `hashlib.md5(...).hexdigest()` is an external library call; it is
  modelled as an abstract digest function `hash_str : Str → Str`
  supplied in the context.  None of the theorems below depend on
  properties of the digest beyond what holds of real digests on the
  concrete inputs used.
* The regex engine (`re`) is external; a compiled pattern is modelled
  by the list of non-overlapping match spans its `finditer` returns
  (for redaction) or by a search function returning the next match
  (for region isolation).  Concrete patterns appearing in the fence
  claims are implemented directly as executable matchers.
* Python dicts of update fields are modelled as structures of
  `Option`-valued fields (key present ⇔ `some`).
* A raised exception is modelled as `Except.error`; side effects that
  happened before a raise are retained, as in Python.
* The two Source Clients are external collaborators (spec §6); their
  state is a `World` of issue snapshots and their create/update/delete
  semantics follow the client contract as exercised by the repository
  (snapshots are immutable; mutating calls refresh `updated_at`).
-/

set_option maxRecDepth 4096

namespace Jirahub

/-- Python strings are modelled as lists of characters. -/
abbrev Str := List Char

/-- Shorthand for writing string literals as `Str`. -/
def lit (s : String) : Str := s.toList

/-- Truthiness of a Python string: non-empty. -/
def strTruthy (s : Str) : Bool := !s.isEmpty

/-- Truthiness of an optional Python string (`None` or a string). -/
def optStrTruthy : Option Str → Bool
  | none => false
  | some s => strTruthy s

/-- The `entities.Source` enum: the two services. -/
inductive Source
  | JIRA
  | GITHUB
deriving DecidableEq

/-- The `Source.other` property: swap the two services. -/
def Source.other : Source → Source
  | .JIRA => .GITHUB
  | .GITHUB => .JIRA

/-- Rendering used by `Source.__str__` ("JIRA" / "GitHub"). -/
def Source.str : Source → Str
  | .JIRA => lit "JIRA"
  | .GITHUB => lit "GitHub"

/-- Issue identifiers: JIRA issues are keyed by strings, GitHub issues by
integers, matching the values the two clients put in `Issue.issue_id`. -/
inductive IssueId
  | jiraKey (k : Str)
  | ghNum (n : Nat)
deriving DecidableEq

/-- Python truthiness of an issue id (empty string and 0 are falsy). -/
def IssueId.truthy : IssueId → Bool
  | .jiraKey k => strTruthy k
  | .ghNum n => n != 0

/-- Truthiness of an optional issue id. -/
def optIdTruthy : Option IssueId → Bool
  | none => false
  | some v => v.truthy

/-- Truthiness of an optional integer (GitHub issue id custom field). -/
def optNatTruthy : Option Nat → Bool
  | none => false
  | some n => n != 0

/-- Rendering of an issue id inside an f-string (`f"{issue_id}"`). -/
def IssueId.render : IssueId → Str
  | .jiraKey k => k
  | .ghNum n => (Nat.repr n).toList

/-- The GitHub issue number carried by an id, when it is one. -/
def IssueId.asGhNum : IssueId → Option Nat
  | .jiraKey _ => none
  | .ghNum n => some n

/-- The `entities.User` record. -/
structure User where
  source : Source
  username : Str
  display_name : Str
deriving DecidableEq

/-- Typed model of the metadata dict attached to issues (and to the
`issue_metadata` of tracking comments): keys `mirror_id`,
`mirror_project`, `body_hash`, `title_hash`.  A key is present exactly
when the field is `some`. -/
structure IssueMeta where
  mirror_id : Option IssueId := none
  mirror_project : Option Str := none
  body_hash : Option Str := none
  title_hash : Option Str := none
deriving DecidableEq

/-- Typed model of the metadata dict attached to comments: keys
`mirror_id`, `body_hash`, `is_tracking_comment`. -/
structure CommentMeta where
  mirror_id : Option Nat := none
  body_hash : Option Str := none
  is_tracking_comment : Option Bool := none
deriving DecidableEq

/-- The `entities.Comment` record (comment ids are integers on both
services). -/
structure Comment where
  source : Source
  comment_id : Nat
  created_at : Nat
  updated_at : Nat
  user : User
  is_bot : Bool
  body : Str := []
  metadata : CommentMeta := {}
  issue_metadata : IssueMeta := {}
deriving DecidableEq

/-- The `Comment.mirror_id` property (`metadata.get(MIRROR_ID)`). -/
def Comment.mirror_id (c : Comment) : Option Nat := c.metadata.mirror_id

/-- The `Comment.is_tracking_comment` property
(`bool(metadata.get(IS_TRACKING_COMMENT))`). -/
def Comment.is_tracking_comment (c : Comment) : Bool :=
  c.metadata.is_tracking_comment.getD false

/-- The `Comment.body_hash` property: the stored hash for a bot comment
(`none` models the `KeyError` raised when the key is missing), the
digest of the body for a human comment. -/
def Comment.body_hash (hs : Str → Str) (c : Comment) : Option Str :=
  if c.is_bot then c.metadata.body_hash else some (hs c.body)

/-- The `entities.Issue` record. -/
structure Issue where
  source : Source
  is_bot : Bool
  issue_id : IssueId
  project : Str
  created_at : Nat
  updated_at : Nat
  user : User
  title : Str
  is_open : Bool
  body : Str := []
  labels : Finset Str := ∅
  priority : Option Str := none
  issue_type : Option Str := none
  milestones : Finset Str := ∅
  components : Finset Str := ∅
  comments : List Comment := []
  metadata : IssueMeta := {}
  github_repository : Option Str := none
  github_issue_id : Option Nat := none
deriving DecidableEq

/-- The `Issue.tracking_comment` property: the first comment flagged as
a tracking comment. -/
def Issue.tracking_comment (i : Issue) : Option Comment :=
  i.comments.find? (fun c => c.is_tracking_comment)

/-- The `Issue._get_metadata` lookup specialised to `MIRROR_ID`: the
issue's own metadata, with fallback to the tracking comment's
`issue_metadata`. -/
def Issue.mirror_id (i : Issue) : Option IssueId :=
  match i.metadata.mirror_id with
  | some v => some v
  | none =>
    match i.tracking_comment with
    | some c => c.issue_metadata.mirror_id
    | none => none

/-- The `Issue._get_metadata` lookup specialised to `MIRROR_PROJECT`. -/
def Issue.mirror_project (i : Issue) : Option Str :=
  match i.metadata.mirror_project with
  | some v => some v
  | none =>
    match i.tracking_comment with
    | some c => c.issue_metadata.mirror_project
    | none => none

/-- The `Issue.body_hash` property (see `Comment.body_hash`). -/
def Issue.body_hash (hs : Str → Str) (i : Issue) : Option Str :=
  if i.is_bot then i.metadata.body_hash else some (hs i.body)

/-- The `Issue.title_hash` property. -/
def Issue.title_hash (hs : Str → Str) (i : Issue) : Option Str :=
  if i.is_bot then i.metadata.title_hash else some (hs i.title)

/-! ## Configuration (`jirahub/config.py`) -/

/-- The `config.SyncFeature` enum. -/
inductive SyncFeature
  | CREATE_ISSUES
  | SYNC_COMMENTS
  | SYNC_STATUS
  | SYNC_LABELS
  | SYNC_MILESTONES
deriving DecidableEq

/-- A compiled redaction pattern is modelled by the list of
non-overlapping `(start, end)` spans its `finditer` yields on a given
text. -/
def Matcher := Str → List (Nat × Nat)

/-- The `config.FilterConfig` record with its defaults. -/
structure FilterConfig where
  min_created_at : Option Nat := none
  include_issue_types : Finset Str := ∅
  exclude_issue_types : Finset Str := ∅
  include_components : Finset Str := ∅
  exclude_components : Finset Str := ∅
  include_labels : Finset Str := ∅
  exclude_labels : Finset Str := ∅
  open_only : Bool := true
deriving DecidableEq

/-- The `config.SyncConfig` record with its defaults;
`redact_regexes` carries matchers in place of compiled patterns. -/
structure SyncConfig where
  create_issues : Bool := false
  sync_comments : Bool := false
  sync_status : Bool := false
  sync_labels : Bool := false
  sync_milestones : Bool := false
  labels : Finset Str := ∅
  redact_regexes : List Matcher := []

/-- The `config.DefaultsConfig` record with its defaults. -/
structure DefaultsConfig where
  issue_type : Option Str := some (lit "Story")
  priority : Option Str := none
  components : Finset Str := ∅

/-- The fields of `config.JiraConfig` consulted by the sync engine. -/
structure JiraConfig where
  server : Str
  project_key : Str
  github_repository_field : Option Str := none
  github_issue_id_field : Option Str := none
  sync : SyncConfig := {}
  filter : FilterConfig := {}
  defaults : DefaultsConfig := {}

/-- The fields of `config.GithubConfig` consulted by the sync engine. -/
structure GithubConfig where
  repository : Str
  sync : SyncConfig := {}
  filter : FilterConfig := {}
  defaults : DefaultsConfig := {}

/-- The `config.JirahubConfig` record. -/
structure JirahubConfig where
  jira : JiraConfig
  github : GithubConfig

/-- Uniform view of the per-source configuration used via
`JirahubConfig.get_source_config`. -/
structure SourceConfig where
  sync : SyncConfig
  filter : FilterConfig
  defaults : DefaultsConfig

/-- The `JirahubConfig.get_source_config` accessor. -/
def JirahubConfig.get_source_config (cfg : JirahubConfig) : Source → SourceConfig
  | .JIRA => ⟨cfg.jira.sync, cfg.jira.filter, cfg.jira.defaults⟩
  | .GITHUB => ⟨cfg.github.sync, cfg.github.filter, cfg.github.defaults⟩

/-- The `JirahubConfig.is_enabled` lookup
(`getattr(sync_config, sync_feature.key)`). -/
def JirahubConfig.is_enabled (cfg : JirahubConfig) (s : Source) : SyncFeature → Bool :=
  fun f =>
    let sc := (cfg.get_source_config s).sync
    match f with
    | .CREATE_ISSUES => sc.create_issues
    | .SYNC_COMMENTS => sc.sync_comments
    | .SYNC_STATUS => sc.sync_status
    | .SYNC_LABELS => sc.sync_labels
    | .SYNC_MILESTONES => sc.sync_milestones

/-! ## Issue filtering (`jirahub.py`, `_IssueFilter.accept`) -/

/-- The `_IssueFilter.accept` predicate, translated clause by clause
from `jirahub.py` lines 20-52.  Python truthiness of the option values
is `some`/non-empty, and `issue.issue_type not in <set>` is true when
the issue type is `None`. -/
def issue_filter_accept (fc : FilterConfig) (issue : Issue) : Bool :=
  if fc.open_only && !issue.is_open then false
  else if (match fc.min_created_at with
           | some t => decide (issue.created_at < t)
           | none => false) then false
  else if fc.include_issue_types ≠ ∅ &&
          !(match issue.issue_type with
            | some v => decide (v ∈ fc.include_issue_types)
            | none => false) then false
  else if fc.exclude_issue_types ≠ ∅ &&
          (match issue.issue_type with
           | some v => decide (v ∈ fc.exclude_issue_types)
           | none => false) then false
  else if fc.include_components ≠ ∅ &&
          fc.include_components ∩ issue.components = ∅ then false
  else if fc.exclude_components ≠ ∅ &&
          fc.exclude_components ∩ issue.components ≠ ∅ then false
  else if fc.include_labels ≠ ∅ &&
          fc.include_labels ∩ issue.labels = ∅ then false
  else if fc.exclude_labels ≠ ∅ &&
          fc.exclude_labels ∩ issue.labels ≠ ∅ then false
  else true

/-! ## Redaction (`IssueSync.redact_text`, jirahub.py lines 507-512) -/

/-- The block character `"█"` used as the redaction fill. -/
def blockChar : Char := '█'

/-- One in-place replacement
`text[: start] + "█" * (end - start) + text[end :]`. -/
def replaceSpan (t : Str) (span : Nat × Nat) : Str :=
  t.take span.1 ++ List.replicate (span.2 - span.1) blockChar ++ t.drop span.2

/-- One pass of the inner loop of `redact_text`: `finditer` is called
once on the incoming text and the resulting spans are applied in
order. -/
def redactPass (spans : List (Nat × Nat)) (t : Str) : Str :=
  spans.foldl replaceSpan t

/-- The core of `redact_text`, folded over the configured patterns. -/
def redact_core (ms : List Matcher) (t : Str) : Str :=
  ms.foldl (fun text m => redactPass (m text) text) t

/-- The spans actually applied during `redact_core` (each pattern's
spans are computed on the text as it stood when that pattern ran). -/
def redactSpans (ms : List Matcher) (t : Str) : List (Nat × Nat) :=
  (ms.foldl (fun acc m =>
    let spans := m acc.1
    (redactPass spans acc.1, acc.2 ++ spans)) (t, [])).2

/-- Membership of a position in a list of spans. -/
def inSpans (spans : List (Nat × Nat)) (idx : Nat) : Bool :=
  spans.any (fun sp => sp.1 ≤ idx && idx < sp.2)

/-! ## The sync engine context

The `IssueSync` object holds the configuration, the two clients and
the two formatters.  The formatters and `urllib.parse.quote` are
components external to `jirahub.py`; they enter the engine only
through `format_link`, `format_body` and URL quoting, so they are
carried as function fields here.  `hash_str` models
`hashlib.md5(...).hexdigest()`. -/
structure SyncCtx where
  cfg : JirahubConfig
  hash_str : Str → Str
  fmt_link : Source → Str → Option Str → Str
  fmt_body : Source → Str → Str
  url_quote : Str → Str
  dry_run : Bool := false

/-- The `IssueSync.get_project` accessor. -/
def SyncCtx.get_project (ctx : SyncCtx) : Source → Str
  | .JIRA => ctx.cfg.jira.project_key
  | .GITHUB => ctx.cfg.github.repository

/-- The `IssueSync.sync_feature_enabled` accessor. -/
def SyncCtx.enabled (ctx : SyncCtx) (s : Source) (f : SyncFeature) : Bool :=
  ctx.cfg.is_enabled s f

/-- The `IssueSync.accept_issue` dispatch to the per-source filter. -/
def SyncCtx.accept_issue (ctx : SyncCtx) (s : Source) (i : Issue) : Bool :=
  issue_filter_accept (ctx.cfg.get_source_config s).filter i

/-- The `IssueSync.redact_text` method: apply every configured
redaction pattern of the given source in order. -/
def SyncCtx.redact_text (ctx : SyncCtx) (s : Source) (t : Str) : Str :=
  redact_core (ctx.cfg.get_source_config s).sync.redact_regexes t

/-! ## URL construction (`utils.UrlHelper`) -/

/-- The `UrlHelper.get_issue_url` builder. -/
def SyncCtx.get_issue_url (ctx : SyncCtx) (i : Issue) : Str :=
  match i.source with
  | .JIRA => ctx.cfg.jira.server ++ lit "/browse/" ++ i.issue_id.render
  | .GITHUB =>
    lit "https://github.com/" ++ ctx.cfg.github.repository ++ lit "/issues/" ++ i.issue_id.render

/-- The `UrlHelper.get_comment_url` builder. -/
def SyncCtx.get_comment_url (ctx : SyncCtx) (i : Issue) (c : Comment) : Str :=
  let cid := (Nat.repr c.comment_id).toList
  match c.source with
  | .JIRA =>
    ctx.cfg.jira.server ++ lit "/browse/" ++ i.issue_id.render ++
      lit "?focusedCommentId=" ++ cid ++ lit "#comment-" ++ cid
  | .GITHUB =>
    lit "https://github.com/" ++ ctx.cfg.github.repository ++ lit "/issues/" ++
      i.issue_id.render ++ lit "#issuecomment-" ++ cid

/-- The `UrlHelper.get_user_profile_url` builder. -/
def SyncCtx.get_user_profile_url (ctx : SyncCtx) (u : User) : Str :=
  match u.source with
  | .JIRA =>
    ctx.cfg.jira.server ++ lit "/secure/ViewProfile.jspa?name=" ++ ctx.url_quote u.username
  | .GITHUB => lit "https://github.com/" ++ ctx.url_quote u.username

/-! ## Mirror text construction (jirahub.py lines 460-505) -/

/-- The `IssueSync.make_mirror_issue_title` method. -/
def SyncCtx.make_mirror_issue_title (ctx : SyncCtx) (src : Issue) : Str :=
  ctx.redact_text src.source.other src.title

/-- The `IssueSync.make_mirror_issue_body` method. -/
def SyncCtx.make_mirror_issue_body (ctx : SyncCtx) (src : Issue) : Str :=
  let mirror_source := src.source.other
  let user_url := ctx.get_user_profile_url src.user
  let user_link := ctx.fmt_link mirror_source user_url (some src.user.display_name)
  let link_text :=
    match src.source with
    | .JIRA => src.issue_id.render
    | .GITHUB => lit "#" ++ src.issue_id.render
  let issue_url := ctx.get_issue_url src
  let issue_link := ctx.fmt_link mirror_source issue_url (some link_text)
  let body := ctx.redact_text mirror_source src.body
  let body := ctx.fmt_body mirror_source body
  lit "_Issue " ++ issue_link ++ lit " was created on " ++ src.source.str ++
    lit " by " ++ user_link ++ lit ":_\r\n\r\n" ++ body

/-- The `IssueSync.make_mirror_comment_body` method. -/
def SyncCtx.make_mirror_comment_body (ctx : SyncCtx) (src_issue : Issue) (src_comment : Comment) : Str :=
  let mirror_source := src_comment.source.other
  let user_url := ctx.get_user_profile_url src_comment.user
  let user_link := ctx.fmt_link mirror_source user_url (some src_comment.user.display_name)
  let comment_url := ctx.get_comment_url src_issue src_comment
  let comment_link := ctx.fmt_link mirror_source comment_url (some src_issue.source.str)
  let body := ctx.redact_text mirror_source src_comment.body
  let body := ctx.fmt_body mirror_source body
  lit "_Comment by " ++ user_link ++ lit " on " ++ comment_link ++ lit ":_\r\n\r\n" ++ body

/-- The `IssueSync.make_tracking_comment_body` method. -/
def SyncCtx.make_tracking_comment_body (ctx : SyncCtx) (mirror : Issue) : Str :=
  let link_text :=
    match mirror.source with
    | .JIRA => mirror.issue_id.render
    | .GITHUB => lit "#" ++ mirror.issue_id.render
  let issue_url := ctx.get_issue_url mirror
  let formatted_link := ctx.fmt_link mirror.source.other issue_url (some link_text)
  lit "_Tracked on " ++ mirror.source.str ++ lit " as issue " ++ formatted_link ++ lit "._"

/-! ## Update dictionaries

A Python dict of issue (or comment) fields is modelled as a structure
of `Option` fields; a key is in the dict exactly when the field is
`some`. -/

/-- Issue field dict, used both for `update_issue` requests and for
`create_issue` requests built by `make_mirror_issue`. -/
structure IssueFields where
  title : Option Str := none
  body : Option Str := none
  is_open : Option Bool := none
  labels : Option (Finset Str) := none
  milestones : Option (Finset Str) := none
  components : Option (Finset Str) := none
  priority : Option Str := none
  issue_type : Option Str := none
  metadata : Option IssueMeta := none
  github_repository : Option Str := none
  github_issue_id : Option Nat := none
deriving DecidableEq

/-- Python truthiness of an update dict (`if updated_issue_updates:`). -/
def IssueFields.nonempty (u : IssueFields) : Bool :=
  u.title.isSome || u.body.isSome || u.is_open.isSome || u.labels.isSome ||
    u.milestones.isSome || u.components.isSome || u.priority.isSome ||
    u.issue_type.isSome || u.metadata.isSome || u.github_repository.isSome ||
    u.github_issue_id.isSome

/-- Comment field dict for `create_comment` / `update_comment`. -/
structure CommentFields where
  body : Option Str := none
  metadata : Option CommentMeta := none
  issue_metadata : Option IssueMeta := none
deriving DecidableEq

/-! ## Field merge computation (jirahub.py lines 201-319) -/

/-- The `IssueSync._make_field_updates` helper (lines 263-285),
with the issue pair passed as the field values and `updated_at`
timestamps the Python code reads from it.  Returns the optional
update entry for each side. -/
def make_field_updates {α : Type} [DecidableEq α]
    (one_enabled two_enabled : Bool) (one_value two_value : α)
    (one_updated two_updated : Nat) : Option α × Option α :=
  if one_enabled || two_enabled then
    if one_value ≠ two_value then
      if one_enabled && two_enabled then
        if two_updated < one_updated then (none, some one_value)
        else (some two_value, none)
      else if one_enabled then (some two_value, none)
      else if two_enabled then (none, some one_value)
      else (none, none)
    else (none, none)
  else (none, none)

/-- The `IssueSync._make_labels_updates` helper (lines 287-319).
Returns the optional `"labels"` entry for each side. -/
def SyncCtx.make_labels_updates (ctx : SyncCtx) (one two : Issue) :
    Option (Finset Str) × Option (Finset Str) :=
  let one_enabled := ctx.enabled one.source .SYNC_LABELS
  let two_enabled := ctx.enabled two.source .SYNC_LABELS
  let one_sync_labels := (ctx.cfg.get_source_config one.source).sync.labels
  let two_sync_labels := (ctx.cfg.get_source_config two.source).sync.labels
  let one_labels := one.labels \ one_sync_labels
  let two_labels := two.labels \ two_sync_labels
  let merged : Finset Str × Finset Str :=
    if one_enabled && two_enabled then
      if two.updated_at < one.updated_at then (one_labels, one_labels)
      else (two_labels, two_labels)
    else if one_enabled then (two_labels, two_labels)
    else if two_enabled then (one_labels, one_labels)
    else (one_labels, two_labels)
  let one_labels := merged.1 ∪ one_sync_labels
  let two_labels := merged.2 ∪ two_sync_labels
  (if one.labels ≠ one_labels then some one_labels else none,
   if two.labels ≠ two_labels then some two_labels else none)

/-- The title/body block of `make_issue_updates` (lines 205-229): the
update entries pushed onto the bot-owned mirror of the pair; empty
when neither issue is a bot.  `none` models the raise when a bot issue
is missing a stored hash. -/
def SyncCtx.mirror_content_updates (ctx : SyncCtx) (issue_one issue_two : Issue) :
    Option IssueFields :=
  let hs := ctx.hash_str
  if issue_one.is_bot || issue_two.is_bot then do
    let source_issue := if issue_one.is_bot then issue_two else issue_one
    let mirror_issue := if issue_one.is_bot then issue_one else issue_two
    let mirror_title_hash ← mirror_issue.title_hash hs
    let source_title_hash ← source_issue.title_hash hs
    let u : IssueFields := {}
    let u :=
      if mirror_title_hash ≠ source_title_hash then
        { u with
          title := some (ctx.make_mirror_issue_title source_issue)
          metadata := some
            { (u.metadata.getD mirror_issue.metadata) with title_hash := some source_title_hash } }
      else u
    let mirror_body_hash ← mirror_issue.body_hash hs
    let source_body_hash ← source_issue.body_hash hs
    let u :=
      if mirror_body_hash ≠ source_body_hash then
        { u with
          body := some (ctx.make_mirror_issue_body source_issue)
          metadata := some
            { (u.metadata.getD mirror_issue.metadata) with body_hash := some source_body_hash } }
      else u
    pure u
  else pure {}

/-- The remainder of `make_issue_updates` (lines 231-261) once the
title/body block has produced `mirror_part`: merge the status,
milestone and label fields into the two dicts (the contributions have
disjoint keys) and add the JIRA custom link fields to whichever side
is the JIRA issue. -/
def SyncCtx.assemble_issue_updates (ctx : SyncCtx) (issue_one issue_two : Issue)
    (mirror_part : IssueFields) : IssueFields × IssueFields :=
  let one0 := if issue_one.is_bot then mirror_part else {}
  let two0 := if issue_one.is_bot then ({} : IssueFields) else mirror_part
  -- Status and milestone merges (lines 231-238).
  let status :=
    make_field_updates (ctx.enabled issue_one.source .SYNC_STATUS)
      (ctx.enabled issue_two.source .SYNC_STATUS)
      issue_one.is_open issue_two.is_open issue_one.updated_at issue_two.updated_at
  let miles :=
    make_field_updates (ctx.enabled issue_one.source .SYNC_MILESTONES)
      (ctx.enabled issue_two.source .SYNC_MILESTONES)
      issue_one.milestones issue_two.milestones issue_one.updated_at issue_two.updated_at
  -- Label merge (lines 240-242).
  let labs := ctx.make_labels_updates issue_one issue_two
  let one1 := { one0 with is_open := status.1, milestones := miles.1, labels := labs.1 }
  let two1 := { two0 with is_open := status.2, milestones := miles.2, labels := labs.2 }
  -- JIRA custom link fields (lines 244-259), written into the dict of
  -- whichever side is the JIRA issue.
  let jira_issue := if issue_one.source = Source.JIRA then issue_one else issue_two
  let github_issue := if issue_one.source = Source.JIRA then issue_two else issue_one
  let j_repo : Option Str :=
    if optStrTruthy ctx.cfg.jira.github_repository_field &&
        jira_issue.github_repository ≠ some ctx.cfg.github.repository then
      some ctx.cfg.github.repository
    else none
  let j_ghid : Option Nat :=
    if optStrTruthy ctx.cfg.jira.github_issue_id_field &&
        jira_issue.github_issue_id ≠ github_issue.issue_id.asGhNum then
      github_issue.issue_id.asGhNum
    else none
  if issue_one.source = Source.JIRA then
    ({ one1 with github_repository := j_repo, github_issue_id := j_ghid }, two1)
  else
    (one1, { two1 with github_repository := j_repo, github_issue_id := j_ghid })

/-- The `IssueSync.make_issue_updates` method (lines 201-261): the
title/body block (lines 205-229) followed by the remaining merges.
The result is `none` when the Python code would raise (a bot issue
missing a stored hash). -/
def SyncCtx.make_issue_updates (ctx : SyncCtx) (issue_one issue_two : Issue) :
    Option (IssueFields × IssueFields) := do
  let mirror_part ← ctx.mirror_content_updates issue_one issue_two
  pure (ctx.assemble_issue_updates issue_one issue_two mirror_part)

/-- The `IssueSync.make_mirror_issue` method (lines 390-437); `none`
models the raise when the source issue is a bot issue missing a
stored hash. -/
def SyncCtx.make_mirror_issue (ctx : SyncCtx) (src : Issue) : Option IssueFields := do
  let mirror_source := src.source.other
  let mirror_config := ctx.cfg.get_source_config mirror_source
  let f : IssueFields := {}
  let f := { f with
    title := some (ctx.make_mirror_issue_title src)
    body := some (ctx.make_mirror_issue_body src) }
  let f :=
    if optStrTruthy mirror_config.defaults.issue_type then
      { f with issue_type := mirror_config.defaults.issue_type }
    else f
  let f :=
    if optStrTruthy mirror_config.defaults.priority then
      { f with priority := mirror_config.defaults.priority }
    else f
  let f :=
    if mirror_config.defaults.components ≠ ∅ then
      { f with components := some mirror_config.defaults.components }
    else f
  let f :=
    if ctx.enabled mirror_source .SYNC_LABELS then
      { f with labels := some src.labels }
    else f
  let sync_labels := (ctx.cfg.get_source_config mirror_source).sync.labels
  let f :=
    if sync_labels ≠ ∅ then
      { f with labels := some ((f.labels.getD ∅) ∪ sync_labels) }
    else f
  let f :=
    if ctx.enabled mirror_source .SYNC_MILESTONES then
      { f with milestones := some src.milestones }
    else f
  let src_body_hash ← src.body_hash ctx.hash_str
  let src_title_hash ← src.title_hash ctx.hash_str
  let md : IssueMeta :=
    { mirror_id := some src.issue_id
      mirror_project := some src.project
      body_hash := some src_body_hash
      title_hash := some src_title_hash }
  let f := { f with metadata := some md }
  let f :=
    if optStrTruthy ctx.cfg.jira.github_repository_field && src.source = Source.GITHUB then
      { f with github_repository := some ctx.cfg.github.repository }
    else f
  let f :=
    if optStrTruthy ctx.cfg.jira.github_issue_id_field && src.source = Source.GITHUB then
      { f with github_issue_id := src.issue_id.asGhNum }
    else f
  pure f

/-- The `IssueSync.make_mirror_comment` method (lines 376-388). -/
def SyncCtx.make_mirror_comment (ctx : SyncCtx) (src_issue : Issue)
    (src_comment : Comment) : Option CommentFields := do
  let body := ctx.make_mirror_comment_body src_issue src_comment
  let h ← src_comment.body_hash ctx.hash_str
  pure
    { body := some body
      metadata := some { mirror_id := some src_comment.comment_id, body_hash := some h } }

/-! ## The two Source Clients as a state machine

Spec §6 treats the Source Clients as external collaborators with a
fixed contract: snapshots are immutable, `update_*` applies the given
fields and returns a fresh snapshot with a new `updated_at`,
`create_*` builds a bot-owned snapshot from the fields, mutating calls
on non-bot content reject title/body changes, and missing ids raise.
This matches both real clients and the repository's mock client
(`tests/mocks.py`), which is the executable statement of that
contract. -/

/-- One recorded client call. -/
inductive ClientCall
  | get_issue (s : Source) (id : IssueId)
  | update_issue (s : Source) (id : IssueId) (fields : IssueFields)
  | create_issue (s : Source) (fields : IssueFields)
  | create_comment (s : Source) (issue : IssueId) (fields : CommentFields)
  | update_comment (s : Source) (comment : Nat) (fields : CommentFields)
  | delete_comment (s : Source) (comment : Nat)
deriving DecidableEq

/-- A call is mutating unless it is a plain read. -/
def ClientCall.isMutating : ClientCall → Bool
  | .get_issue _ _ => false
  | _ => true

/-- The state of the two services: each side's issue list, a clock for
fresh `updated_at`/`created_at` values, and counters for fresh ids. -/
structure World where
  jira_issues : List Issue
  github_issues : List Issue
  clock : Nat
  next_issue_num : Nat := 1000
  next_comment_id : Nat := 1000
deriving DecidableEq

/-- The issue list of one side. -/
def World.issues (w : World) : Source → List Issue
  | .JIRA => w.jira_issues
  | .GITHUB => w.github_issues

/-- Replace the issue list of one side. -/
def World.setIssues (w : World) (s : Source) (l : List Issue) : World :=
  match s with
  | .JIRA => { w with jira_issues := l }
  | .GITHUB => { w with github_issues := l }

/-- Result of one monadic step: outcome, final world, recorded calls. -/
structure SyncOut (α : Type) where
  res : Except Unit α
  world : World
  trace : List ClientCall

/-- The effect monad of the engine: state (the two services), a call
trace, and Python exceptions.  Side effects performed before a raise
are kept. -/
def SyncM (α : Type) : Type := World → SyncOut α

instance : Monad SyncM where
  pure a := fun w => ⟨.ok a, w, []⟩
  bind m f := fun w =>
    match m w with
    | ⟨.ok a, w1, t1⟩ =>
      let r := f a w1
      ⟨r.res, r.world, t1 ++ r.trace⟩
    | ⟨.error e, w1, t1⟩ => ⟨.error e, w1, t1⟩

/-- Raise an exception. -/
def raiseErr {α : Type} : SyncM α := fun w => ⟨.error (), w, []⟩

/-- Evaluate an expression that may have raised (`Option`-modelled),
re-raising in the monad. -/
def liftOpt {α : Type} : Option α → SyncM α
  | some a => pure a
  | none => raiseErr

/-- A `try: ... except Exception:` block around a computation: the
result is `none` when it raised; state and trace up to the raise are
kept. -/
def attempt {α : Type} (m : SyncM α) : SyncM (Option α) := fun w =>
  match m w with
  | ⟨.ok a, w1, t1⟩ => ⟨.ok (some a), w1, t1⟩
  | ⟨.error _, w1, t1⟩ => ⟨.ok none, w1, t1⟩

/-- Read the clock and advance it (a fresh timestamp). -/
def tick : SyncM Nat := fun w => ⟨.ok w.clock, { w with clock := w.clock + 1 }, []⟩

/-- Record a client call. -/
def emit (c : ClientCall) : SyncM Unit := fun w => ⟨.ok (), w, [c]⟩

/-- Client `get_issue`: look up an issue by id; a missing id raises. -/
def client_get_issue (s : Source) (id : IssueId) : SyncM Issue := do
  emit (.get_issue s id)
  fun w =>
    match (w.issues s).find? (fun i => i.issue_id == id) with
    | some i => ⟨.ok i, w, []⟩
    | none => ⟨.error (), w, []⟩

/-- Apply an update dict to an issue snapshot, refreshing
`updated_at`; fields not in the dict are unchanged. -/
def applyIssueFields (u : IssueFields) (t : Nat) (i : Issue) : Issue :=
  { i with
    updated_at := t
    title := u.title.getD i.title
    body := u.body.getD i.body
    is_open := u.is_open.getD i.is_open
    labels := u.labels.getD i.labels
    milestones := u.milestones.getD i.milestones
    components := u.components.getD i.components
    priority := match u.priority with | some p => some p | none => i.priority
    issue_type := match u.issue_type with | some ty => some ty | none => i.issue_type
    metadata := u.metadata.getD i.metadata
    github_repository :=
      match u.github_repository with | some r => some r | none => i.github_repository
    github_issue_id :=
      match u.github_issue_id with | some n => some n | none => i.github_issue_id }

/-- Client `update_issue`: reject title/body changes on non-bot
issues, apply the fields to the passed snapshot, store and return the
new snapshot. -/
def client_update_issue (s : Source) (i : Issue) (u : IssueFields) : SyncM Issue := do
  emit (.update_issue s i.issue_id u)
  if (u.title.isSome || u.body.isSome) && !i.is_bot then raiseErr
  else do
    let t ← tick
    let updated := applyIssueFields u t i
    fun w =>
      let l := (w.issues s).filter (fun x => x.issue_id != i.issue_id) ++ [updated]
      ⟨.ok updated, w.setIssues s l, []⟩

/-- Fresh issue id for a created mirror. -/
def freshIssueId (s : Source) (n : Nat) : IssueId :=
  match s with
  | .JIRA => .jiraKey (lit "TEST-" ++ (Nat.repr n).toList)
  | .GITHUB => .ghNum n

/-- The bot account of one side. -/
def botUser (s : Source) : User := ⟨s, lit "bot", lit "jirahub bot"⟩

/-- Client `create_issue`: build a bot-owned snapshot from the fields
(unset fields take their defaults, the new issue starts open with no
comments) and append it. -/
def client_create_issue (ctx : SyncCtx) (s : Source) (f : IssueFields) : SyncM Issue := do
  emit (.create_issue s f)
  let t ← tick
  fun w =>
    let issue : Issue :=
      { source := s
        is_bot := true
        issue_id := freshIssueId s w.next_issue_num
        project := ctx.get_project s
        created_at := t
        updated_at := t
        user := botUser s
        title := f.title.getD []
        is_open := true
        body := f.body.getD []
        labels := f.labels.getD ∅
        milestones := f.milestones.getD ∅
        components := f.components.getD ∅
        comments := []
        priority := f.priority
        issue_type := f.issue_type
        metadata := f.metadata.getD {} }
    let w := w.setIssues s (w.issues s ++ [issue])
    ⟨.ok issue, { w with next_issue_num := w.next_issue_num + 1 }, []⟩

/-- Client `create_comment`: build a bot-owned comment from the fields
and append it to the stored issue's comment list (the issue's own
`updated_at` is not touched). -/
def client_create_comment (s : Source) (issueId : IssueId) (f : CommentFields) :
    SyncM Comment := do
  emit (.create_comment s issueId f)
  let t ← tick
  fun w =>
    match (w.issues s).find? (fun i => i.issue_id == issueId) with
    | none => ⟨.error (), w, []⟩
    | some issue =>
      let comment : Comment :=
        { source := s
          comment_id := w.next_comment_id
          created_at := t
          updated_at := t
          user := botUser s
          is_bot := true
          body := f.body.getD []
          metadata := f.metadata.getD {}
          issue_metadata := f.issue_metadata.getD {} }
      let issue' := { issue with comments := issue.comments ++ [comment] }
      let l := (w.issues s).map (fun x => if x.issue_id == issueId then issue' else x)
      ⟨.ok comment, { w.setIssues s l with next_comment_id := w.next_comment_id + 1 }, []⟩

/-- Apply a comment update dict to a snapshot, refreshing
`updated_at`; fields not in the dict are unchanged (in particular the
stored metadata survives a body-only update). -/
def applyCommentFields (u : CommentFields) (t : Nat) (c : Comment) : Comment :=
  { c with
    updated_at := t
    body := u.body.getD c.body
    metadata := u.metadata.getD c.metadata
    issue_metadata := u.issue_metadata.getD c.issue_metadata }

/-- Client `update_comment`: reject updates of non-bot comments, find
the issue holding the comment and replace the comment snapshot. -/
def client_update_comment (s : Source) (c : Comment) (u : CommentFields) : SyncM Unit := do
  emit (.update_comment s c.comment_id u)
  if !c.is_bot then raiseErr
  else do
    let t ← tick
    fun w =>
      match (w.issues s).find? (fun i => i.comments.any (fun x => x.comment_id == c.comment_id)) with
      | none => ⟨.error (), w, []⟩
      | some issue =>
        let updated := applyCommentFields u t c
        let issue' := { issue with
          comments := issue.comments.filter (fun x => x.comment_id != c.comment_id) ++ [updated] }
        let l := (w.issues s).map (fun x => if x.issue_id == issue.issue_id then issue' else x)
        ⟨.ok (), w.setIssues s l, []⟩

/-- Client `delete_comment`: reject deletes of non-bot comments and
remove the comment from its issue. -/
def client_delete_comment (s : Source) (c : Comment) : SyncM Unit := do
  emit (.delete_comment s c.comment_id)
  if !c.is_bot then raiseErr
  else
    fun w =>
      match (w.issues s).find? (fun i => i.comments.any (fun x => x.comment_id == c.comment_id)) with
      | none => ⟨.error (), w, []⟩
      | some issue =>
        let issue' := { issue with
          comments := issue.comments.filter (fun x => x.comment_id != c.comment_id) }
        let l := (w.issues s).map (fun x => if x.issue_id == issue.issue_id then issue' else x)
        ⟨.ok (), w.setIssues s l, []⟩

/-! ## Comment synchronization (jirahub.py lines 321-374) -/

/-- Python dict lookup over an association list built by iteration:
later insertions win. -/
def dictGet {κ : Type} [DecidableEq κ] (l : List (κ × Comment)) (k : κ) : Option Comment :=
  (l.reverse.find? (fun e => e.1 == k)).map (fun e => e.2)

/-- The body of the `for issue, comment, other_issue in all_comments`
loop (lines 334-372), without the surrounding `try`. -/
def SyncCtx.sync_one_comment (ctx : SyncCtx)
    (comments_by_id : List (Nat × Comment))
    (comments_by_mirror_id : List (Option Nat × Comment))
    (entry : Issue × Comment × Issue) : SyncM Unit := do
  let (issue, comment, other_issue) := entry
  let _ := issue
  if comment.is_bot then
    let source_comment :=
      match comment.mirror_id with
      | some k => dictGet comments_by_id k
      | none => none
    if source_comment.isNone && ctx.enabled comment.source .SYNC_COMMENTS then
      if !ctx.dry_run then
        client_delete_comment comment.source comment
      else pure ()
    else pure ()
  else
    match dictGet comments_by_mirror_id (some comment.comment_id) with
    | some mirror_comment =>
      if ctx.enabled mirror_comment.source .SYNC_COMMENTS then do
        let mirror_hash ← liftOpt (mirror_comment.body_hash ctx.hash_str)
        let comment_hash ← liftOpt (comment.body_hash ctx.hash_str)
        if mirror_hash ≠ comment_hash then
          let upd : CommentFields :=
            { body := some (ctx.make_mirror_comment_body issue comment) }
          if !ctx.dry_run then
            client_update_comment other_issue.source mirror_comment upd
          else pure ()
        else pure ()
      else pure ()
    | none =>
      if ctx.enabled other_issue.source .SYNC_COMMENTS then do
        let fields ← liftOpt (ctx.make_mirror_comment issue comment)
        if !ctx.dry_run then do
          let _ ← client_create_comment other_issue.source other_issue.issue_id fields
          pure ()
        else pure ()
      else pure ()

/-- Iterate the per-comment loop, each step in its own
`try/except`. -/
def SyncCtx.sync_comments_loop (ctx : SyncCtx)
    (comments_by_id : List (Nat × Comment))
    (comments_by_mirror_id : List (Option Nat × Comment)) :
    List (Issue × Comment × Issue) → SyncM Unit
  | [] => pure ()
  | entry :: rest => do
    let _ ← attempt (ctx.sync_one_comment comments_by_id comments_by_mirror_id entry)
    ctx.sync_comments_loop comments_by_id comments_by_mirror_id rest

/-- The `IssueSync.sync_comments` method (lines 321-374). -/
def SyncCtx.sync_comments (ctx : SyncCtx) (issue_one issue_two : Issue) : SyncM Unit := do
  if !ctx.enabled issue_one.source .SYNC_COMMENTS &&
      !ctx.enabled issue_two.source .SYNC_COMMENTS then
    pure ()
  else
    let issue_one_comments :=
      (issue_one.comments.filter (fun c => !c.is_tracking_comment)).map
        (fun c => (issue_one, c, issue_two))
    let issue_two_comments :=
      (issue_two.comments.filter (fun c => !c.is_tracking_comment)).map
        (fun c => (issue_two, c, issue_one))
    let all_comments := issue_one_comments ++ issue_two_comments
    let comments_by_id := all_comments.map (fun e => (e.2.1.comment_id, e.2.1))
    let comments_by_mirror_id :=
      (all_comments.filter (fun e => e.2.1.is_bot)).map (fun e => (e.2.1.mirror_id, e.2.1))
    ctx.sync_comments_loop comments_by_id comments_by_mirror_id all_comments

/-- The `IssueSync._create_tracking_comment` method (lines 439-458). -/
def SyncCtx.create_tracking_comment (ctx : SyncCtx) (src mirror : Issue) : SyncM Unit := do
  let fields : CommentFields :=
    { body := some (ctx.make_tracking_comment_body mirror)
      metadata := some { is_tracking_comment := some true }
      issue_metadata := some
        { mirror_id := some mirror.issue_id, mirror_project := some mirror.project } }
  if !ctx.dry_run then do
    let _ ← client_create_comment src.source src.issue_id fields
    pure ()
  else pure ()

/-! ## Per-issue synchronization (jirahub.py lines 125-199) -/

/-- Shared tail of the matched-pair path (lines 152-176): compute and
apply field updates, ensure tracking comments, sync comments. -/
def SyncCtx.sync_pair (ctx : SyncCtx) (updated_issue other_issue : Issue) :
    SyncM (Option Issue) := do
  let (updated_issue_updates, other_issue_updates) ←
    liftOpt (ctx.make_issue_updates updated_issue other_issue)
  if updated_issue_updates.nonempty then
    if !ctx.dry_run then do
      let _ ← client_update_issue updated_issue.source updated_issue updated_issue_updates
      pure ()
    else pure ()
  else pure ()
  if other_issue_updates.nonempty then
    if !ctx.dry_run then do
      let _ ← client_update_issue other_issue.source other_issue other_issue_updates
      pure ()
    else pure ()
  else pure ()
  if !updated_issue.is_bot && (updated_issue.tracking_comment).isNone then
    ctx.create_tracking_comment updated_issue other_issue
  else pure ()
  if !other_issue.is_bot && (other_issue.tracking_comment).isNone then
    ctx.create_tracking_comment other_issue updated_issue
  else pure ()
  ctx.sync_comments updated_issue other_issue
  pure (some other_issue)

/-- The `IssueSync._perform_sync_issue` method (lines 125-199). -/
def SyncCtx.perform_sync_issue (ctx : SyncCtx) (updated_issue : Issue) :
    SyncM (Option Issue) := do
  let other_source := updated_issue.source.other
  if optIdTruthy updated_issue.mirror_id || optNatTruthy updated_issue.github_issue_id then
    if optIdTruthy updated_issue.mirror_id then
      -- lines 129-134
      if updated_issue.mirror_project ≠ some (ctx.get_project other_source) then
        pure none
      else
        match updated_issue.mirror_id with
        | some mid => do
          let other_issue ← client_get_issue other_source mid
          ctx.sync_pair updated_issue other_issue
        | none => raiseErr
    else
      -- lines 135-150
      if updated_issue.source ≠ Source.JIRA then raiseErr
      else if optStrTruthy ctx.cfg.jira.github_repository_field &&
          updated_issue.github_repository ≠ some ctx.cfg.github.repository then
        pure none
      else
        match updated_issue.github_issue_id with
        | some gid => do
          let other_issue ← client_get_issue other_source (.ghNum gid)
          ctx.sync_pair updated_issue other_issue
        | none => raiseErr
  else
    -- lines 177-199
    if ctx.enabled other_source .CREATE_ISSUES && ctx.accept_issue other_source updated_issue then do
      let mirror_issue_fields ← liftOpt (ctx.make_mirror_issue updated_issue)
      if !ctx.dry_run then do
        let mirror_issue ← client_create_issue ctx other_source mirror_issue_fields
        ctx.create_tracking_comment updated_issue mirror_issue
        let (updated_issue_updates, _) ←
          liftOpt (ctx.make_issue_updates updated_issue mirror_issue)
        if updated_issue_updates.nonempty then do
          let _ ← client_update_issue updated_issue.source updated_issue updated_issue_updates
          pure ()
        else pure ()
        ctx.sync_comments updated_issue mirror_issue
        pure (some mirror_issue)
      else
        pure none
    else
      pure none

/-! ## The top-level sync loop (jirahub.py lines 102-123) -/

/-- The dedupe key of an issue. -/
def seenKey (i : Issue) : Source × IssueId := (i.source, i.issue_id)

/-- The `for updated_issue in ...` loop of `perform_sync`
(lines 112-123): skip already-seen issues, process each remaining one
inside its own `try/except`, extend the seen set only on success. -/
def SyncCtx.perform_sync_loop (ctx : SyncCtx) :
    List Issue → List (Source × IssueId) → SyncM Unit
  | [], _ => pure ()
  | updated_issue :: rest, seen =>
    if seenKey updated_issue ∈ seen then ctx.perform_sync_loop rest seen
    else do
      let r ← attempt (ctx.perform_sync_issue updated_issue)
      match r with
      | none => ctx.perform_sync_loop rest seen
      | some other_issue =>
        let seen := seenKey updated_issue :: seen
        let seen :=
          match other_issue with
          | some o => seenKey o :: seen
          | none => seen
        ctx.perform_sync_loop rest seen

/-- The `IssueSync.find_updated_issues` generator (lines 102-104): all
JIRA issues past the watermark, then all GitHub issues past it.  The
per-client `find_issues` watermark filter follows the client contract
(issues with `updated_at >= min_updated_at`). -/
def SyncCtx.find_updated_issues (min_updated_at : Option Nat) : SyncM (List Issue) :=
  fun w =>
    let keep := fun (i : Issue) =>
      match min_updated_at with
      | none => true
      | some t => decide (t ≤ i.updated_at)
    ⟨.ok ((w.issues .JIRA).filter keep ++ (w.issues .GITHUB).filter keep), w, []⟩

/-- The `IssueSync.perform_sync` method (lines 106-123).  It takes
only the watermark, and its Python body has no `return` statement: the
call returns `None`, modelled as the sole value of `Unit`. -/
def SyncCtx.perform_sync (ctx : SyncCtx) (min_updated_at : Option Nat) : SyncM Unit := do
  let issues ← SyncCtx.find_updated_issues min_updated_at
  ctx.perform_sync_loop issues []

/-! ## Region isolation (`utils.isolate_regions`, utils.py lines 82-110)

A compiled pattern enters `isolate_regions` only through
`pattern.search(content, index)`; it is modelled as a search function
returning the next match (start, end and the captured groups the fence
handlers read).  The patterns used by the fence claims are implemented
below as executable matchers. -/

/-- A regex match object: span plus the two groups read by the
handlers (`group(1)` of the JIRA open fence is always a string,
`group(2)` of the GitHub `{code(:(.*?))?}` fence may be absent). -/
structure ReMatch where
  mstart : Nat
  mstop : Nat
  group1 : Str := []
  group2 : Option Str := none
deriving DecidableEq

/-- A `pattern.search(content, index)` function. -/
def SearchFn := Str → Nat → Option ReMatch

/-- A `content_handler(content, open_match)` function returning
`(replacement_text, formatted_flag)`. -/
def Handler := Str → ReMatch → Str × Bool

/-- The slice `content[i : j]`. -/
def slice (t : Str) (i j : Nat) : Str := (t.take j).drop i

/-- The `while current_index < len(content)` loop of
`isolate_regions`, one formatted region at a time.  The loop is
total in Python only when every match makes progress; the recursion is
bounded by explicit fuel (`isolate_regions` passes `length + 1`,
enough whenever each iteration advances the index, as the concrete
fence patterns do). -/
def isolateLoop (o c : SearchFn) (h : Handler) (content : Str) :
    Nat → Nat → List (Str × Bool)
  | 0, _ => []
  | fuel + 1, current =>
    if current < content.length then
      match o content current with
      | some m =>
        let pre := if current < m.mstart then [(slice content current m.mstart, true)] else []
        let start_index := m.mstop
        let next :=
          match c content start_index with
          | some cm => (cm.mstart, cm.mstop)
          | none => (content.length, content.length)
        let region := h (slice content start_index next.1) m
        pre ++ [region] ++ isolateLoop o c h content fuel next.2
      | none => [(content.drop current, true)]
    else []

/-- The `utils.isolate_regions` function: unformatted regions pass
through, formatted regions run the loop. -/
def isolate_regions (regions : List (Str × Bool)) (o c : SearchFn) (h : Handler) :
    List (Str × Bool) :=
  regions.foldl
    (fun acc r =>
      if !r.2 then acc ++ [r]
      else acc ++ isolateLoop o c h r.1 (r.1.length + 1) 0)
    []

/-- The pieces a formatted region decomposes into: plain text between
matches, and the content span between an open and a close match
(handed to the handler).  The decomposition depends only on the
patterns, not on the handler. -/
inductive RegionPiece
  | plain (s : Str)
  | matched (s : Str) (m : ReMatch)
deriving DecidableEq

/-- The handler-independent decomposition computed by the
`isolate_regions` loop. -/
def regionDecomp (o c : SearchFn) (content : Str) : Nat → Nat → List RegionPiece
  | 0, _ => []
  | fuel + 1, current =>
    if current < content.length then
      match o content current with
      | some m =>
        let pre :=
          if current < m.mstart then [RegionPiece.plain (slice content current m.mstart)] else []
        let start_index := m.mstop
        let next :=
          match c content start_index with
          | some cm => (cm.mstart, cm.mstop)
          | none => (content.length, content.length)
        pre ++ [RegionPiece.matched (slice content start_index next.1) m] ++
          regionDecomp o c content fuel next.2
      | none => [RegionPiece.plain (content.drop current)]
    else []

/-- How one piece appears in the output: plain text stays a formatted
region, a matched span becomes exactly the handler's output. -/
def interpPiece (h : Handler) : RegionPiece → Str × Bool
  | .plain s => (s, true)
  | .matched s m => h s m

/-! ## Concrete fence patterns and handlers
(`github.Formatter` lines 318-321 and 389-416,
`jira.Formatter` lines 459-460 and 500-504) -/

/-- Does `pat` occur in `t` starting at position `i`? -/
def matchesAt (t : Str) (i : Nat) (pat : Str) : Bool :=
  pat.isPrefixOf (t.drop i)

/-- First position `j ≥ i` (scanning at most `fuel` positions) where
`f` yields a match. -/
def searchFromAux (f : Nat → Option ReMatch) : Nat → Nat → Option ReMatch
  | _, 0 => none
  | i, fuel + 1 =>
    match f i with
    | some m => some m
    | none => searchFromAux f (i + 1) fuel

/-- Searcher for a plain literal pattern. -/
def searchLit (pat : Str) : SearchFn := fun t i =>
  searchFromAux
    (fun j => if matchesAt t j pat then some ⟨j, j + pat.length, [], none⟩ else none)
    i (t.length + 1 - i)

/-- A `\w` character (ASCII interpretation of the patterns used). -/
def isWordChar (ch : Char) : Bool := ch.isAlphanum || ch = '_'

/-- Matcher for the JIRA formatter's open fence ``` `(\w*)` ```
(`NOFORMAT_OPEN_RE`): three backticks followed by a greedy run of word
characters captured as group 1. -/
def jiraNoformatOpenSearch : SearchFn := fun t i =>
  searchFromAux
    (fun j =>
      if matchesAt t j (lit "```") then
        let wd := (t.drop (j + 3)).takeWhile isWordChar
        some ⟨j, j + 3 + wd.length, wd, none⟩
      else none)
    i (t.length + 1 - i)

/-- Matcher for the JIRA formatter's close fence (`NOFORMAT_CLOSE_RE`,
a literal ``` ``` ```). -/
def jiraNoformatCloseSearch : SearchFn := searchLit (lit "```")

/-- Single-position match of the GitHub formatter's open fence
`CODE_OPEN_RE = \x7bcode(:(.*?))?\x7d`: either the bare `\x7bcode\x7d`
(group 2 absent) or `\x7bcode:` followed by the shortest run of
non-newline characters up to a closing brace (group 2). -/
def ghCodeOpenAt (t : Str) (j : Nat) : Option ReMatch :=
  if matchesAt t j (lit "\x7bcode\x7d") then some ⟨j, j + 6, [], none⟩
  else if matchesAt t j (lit "\x7bcode:") then
    let rest := t.drop (j + 6)
    let content := rest.takeWhile (fun ch => ch ≠ '\x7d' && ch ≠ '\n')
    if (rest.drop content.length).head? = some '\x7d' then
      some ⟨j, j + 6 + content.length + 1, [], some content⟩
    else none
  else none

/-- Searcher for `CODE_OPEN_RE`. -/
def githubCodeOpenSearch : SearchFn := fun t i =>
  searchFromAux (ghCodeOpenAt t) i (t.length + 1 - i)

/-- Searcher for `CODE_CLOSE_RE` (literal `\x7bcode\x7d`). -/
def githubCodeCloseSearch : SearchFn := searchLit (lit "\x7bcode\x7d")

/-- Searcher for `NOFORMAT_RE` (literal `\x7bnoformat\x7d`). -/
def githubNoformatSearch : SearchFn := searchLit (lit "\x7bnoformat\x7d")

/-- Searcher for `QUOTE_RE` (literal `\x7bquote\x7d`). -/
def githubQuoteSearch : SearchFn := searchLit (lit "\x7bquote\x7d")

/-- Is a Python-stripped string empty (all whitespace)? -/
def strBlank (s : Str) : Bool := s.all Char.isWhitespace

/-- `github.Formatter._handle_noformat_content` (lines 389-393). -/
def github_handle_noformat_content : Handler := fun content _ =>
  if content.length > 0 then (lit "```" ++ content ++ lit "```", false)
  else ([], false)

/-- `github.Formatter._handle_code_content` (lines 395-404). -/
def github_handle_code_content : Handler := fun content m =>
  let language := if optStrTruthy m.group2 then m.group2.getD [] else []
  if content.length > 0 then (lit "```" ++ language ++ content ++ lit "```", false)
  else ([], false)

/-- `github.Formatter._handle_quoted_content` (lines 406-416).  When
the sole line is blank, Python's `lines[-1]` raises `IndexError`; that
unreachable-in-the-theorems corner is modelled as `([], false)`. -/
def github_handle_quoted_content : Handler := fun content _ =>
  if content.length > 0 then
    let lines := content.splitOn '\n'
    let lines :=
      match lines with
      | l0 :: rest => if strBlank l0 then rest else l0 :: rest
      | [] => []
    match lines.getLast? with
    | none => ([], false)
    | some llast =>
      let lines := if strBlank llast then lines.dropLast else lines
      ([ '\n' ] ++ List.intercalate [ '\n' ] (lines.map (fun l => lit "> " ++ l)) ++ [ '\n' ], true)
  else ([], false)

/-- `jira.Formatter._handle_noformat_content` (lines 500-504): wrap
the content in `\x7bcode:lang\x7d...\x7bcode\x7d` when a language was
captured, in `\x7bnoformat\x7d...\x7bnoformat\x7d` otherwise.  There
is no empty-content special case on this side. -/
def jira_handle_noformat_content : Handler := fun content m =>
  if strTruthy m.group1 then
    (lit "\x7bcode:" ++ m.group1 ++ lit "\x7d" ++ content ++ lit "\x7bcode\x7d", false)
  else
    (lit "\x7bnoformat\x7d" ++ content ++ lit "\x7bnoformat\x7d", false)

/-- `github.Formatter.format_body` (lines 372-387) with the
content-substitution chain `_format_content` (a regex-table rewriter
over the external regex engine) abstracted as `fc`. -/
def github_format_body (fc : Str → Str) (body : Str) : Str :=
  let regions := [(body, true)]
  let regions :=
    isolate_regions regions githubCodeOpenSearch githubCodeCloseSearch
      github_handle_code_content
  let regions :=
    isolate_regions regions githubNoformatSearch githubNoformatSearch
      github_handle_noformat_content
  let regions :=
    isolate_regions regions githubQuoteSearch githubQuoteSearch
      github_handle_quoted_content
  regions.foldl (fun res r => res ++ (if r.2 then fc r.1 else r.1)) []

/-- `jira.Formatter.format_body` (lines 485-498) with
`_format_content` abstracted as `fc`. -/
def jira_format_body (fc : Str → Str) (body : Str) : Str :=
  let regions := [(body, true)]
  let regions :=
    isolate_regions regions jiraNoformatOpenSearch jiraNoformatCloseSearch
      jira_handle_noformat_content
  regions.foldl (fun res r => res ++ (if r.2 then fc r.1 else r.1)) []

/-! ## Concrete evaluation scenarios

Small concrete contexts and worlds used to evaluate the engine at
specific inputs.  `idHash` is a stand-in digest (injective on the
short, distinct strings appearing below, as a real digest is);
`fmtLinkC`/`fmtBodyC` are concrete formatter instances (none of the
evaluated facts depend on their choice). -/

/-- Stand-in digest function for concrete runs. -/
def idHash : Str → Str := id

/-- Concrete `format_link` instance. -/
def fmtLinkC : Source → Str → Option Str → Str := fun _ url txt => txt.getD url

/-- Concrete `format_body` instance. -/
def fmtBodyC : Source → Str → Str := fun _ b => b

/-- A matcher behaving like `finditer` of a match-anything pattern
(such as `.+`) on newline-free text: one span covering the whole
string. -/
def wholeMatcher : Matcher := fun t => if t.isEmpty then [] else [(0, t.length)]

/-- A human JIRA user. -/
def jiraUser : User := ⟨.JIRA, lit "alice", lit "Alice"⟩

/-- A human GitHub user. -/
def ghUser : User := ⟨.GITHUB, lit "bob", lit "Bob"⟩

/-- Configuration for the idempotence run: comment sync enabled on the
GitHub side, everything else at its defaults. -/
def c3Cfg : JirahubConfig :=
  { jira := { server := lit "https://jira.example.com", project_key := lit "P" }
    github := { repository := lit "R", sync := { sync_comments := true } } }

/-- Engine context for the idempotence run. -/
def c3Ctx : SyncCtx :=
  { cfg := c3Cfg, hash_str := idHash, fmt_link := fmtLinkC, fmt_body := fmtBodyC
    url_quote := id }

/-- Tracking comment on the JIRA issue, linking it to GitHub issue 5. -/
def c3TrackJ : Comment :=
  { source := .JIRA, comment_id := 1, created_at := 0, updated_at := 0
    user := botUser .JIRA, is_bot := true
    body := lit "_Tracked on GitHub as issue #5._"
    metadata := { is_tracking_comment := some true }
    issue_metadata := { mirror_id := some (.ghNum 5), mirror_project := some (lit "R") } }

/-- A human comment on the JIRA issue whose body was edited after its
mirror was created (the mirror's stored hash is the digest of the old
body). -/
def c3HumanC : Comment :=
  { source := .JIRA, comment_id := 2, created_at := 1, updated_at := 6
    user := jiraUser, is_bot := false, body := lit "new" }

/-- Tracking comment on the GitHub issue, linking back to `P-1`. -/
def c3TrackG : Comment :=
  { source := .GITHUB, comment_id := 3, created_at := 0, updated_at := 0
    user := botUser .GITHUB, is_bot := true
    body := lit "_Tracked on JIRA as issue P-1._"
    metadata := { is_tracking_comment := some true }
    issue_metadata := { mirror_id := some (.jiraKey (lit "P-1")), mirror_project := some (lit "P") } }

/-- The bot-owned mirror of comment 2 on the GitHub issue; its stored
`body_hash` is the digest of the pre-edit body. -/
def c3MirrorC : Comment :=
  { source := .GITHUB, comment_id := 4, created_at := 2, updated_at := 2
    user := botUser .GITHUB, is_bot := true
    body := lit "_Comment by Alice on JIRA:_\r\n\r\nold"
    metadata := { mirror_id := some 2, body_hash := some (lit "old") } }

/-- The human-owned JIRA issue of the linked pair. -/
def c3IssueJ : Issue :=
  { source := .JIRA, is_bot := false, issue_id := .jiraKey (lit "P-1")
    project := lit "P", created_at := 0, updated_at := 6, user := jiraUser
    title := lit "t", is_open := true, comments := [c3TrackJ, c3HumanC] }

/-- The human-owned GitHub issue of the linked pair. -/
def c3IssueG : Issue :=
  { source := .GITHUB, is_bot := false, issue_id := .ghNum 5
    project := lit "R", created_at := 0, updated_at := 5, user := ghUser
    title := lit "t2", is_open := true, comments := [c3TrackG, c3MirrorC] }

/-- Starting state of the idempotence run. -/
def c3World : World := ⟨[c3IssueJ], [c3IssueG], 10, 1000, 1000⟩

/-- First `perform_sync` run on `c3World`. -/
def c3Run1 : SyncOut Unit := c3Ctx.perform_sync none c3World

/-- Second `perform_sync` run, with no intervening external change. -/
def c3Run2 : SyncOut Unit := c3Ctx.perform_sync none c3Run1.world

/-- The comment update both runs send to the GitHub client. -/
def c3UpdFields : CommentFields :=
  { body := some (c3Ctx.make_mirror_comment_body c3IssueJ c3HumanC) }

/-- Configuration for the title-flow scenario: a GitHub-side redaction
pattern that blanks whole lines. -/
def c6Cfg : JirahubConfig :=
  { jira := { server := lit "https://jira.example.com", project_key := lit "P" }
    github := { repository := lit "R", sync := { redact_regexes := [wholeMatcher] } } }

/-- Engine context for the title-flow scenario. -/
def c6Ctx : SyncCtx :=
  { cfg := c6Cfg, hash_str := idHash, fmt_link := fmtLinkC, fmt_body := fmtBodyC
    url_quote := id }

/-- Source issue whose title was edited from `"aa"` to `"ab"`; both
titles redact to the same mirror title. -/
def c6Src : Issue :=
  { source := .JIRA, is_bot := false, issue_id := .jiraKey (lit "P-1")
    project := lit "P", created_at := 0, updated_at := 4, user := jiraUser
    title := lit "ab", is_open := true, body := lit "x" }

/-- The bot-owned mirror; its current title is the redaction of the
old source title (identical to the redaction of the new one) and its
stored `title_hash` is the digest of the old title. -/
def c6Mirror : Issue :=
  { source := .GITHUB, is_bot := true, issue_id := .ghNum 7
    project := lit "R", created_at := 1, updated_at := 3, user := botUser .GITHUB
    title := lit "██", is_open := true
    body := lit "_Issue P-1 was created on JIRA by Alice:_\r\n\r\n█"
    metadata := { mirror_id := some (.jiraKey (lit "P-1")), mirror_project := some (lit "P")
                  body_hash := some (lit "x"), title_hash := some (lit "aa") } }

/-- The update dict `make_issue_updates` produces for the mirror in
the title-flow scenario. -/
def c6U2 : IssueFields :=
  { title := some (lit "██")
    metadata := some
      { mirror_id := some (.jiraKey (lit "P-1")), mirror_project := some (lit "P")
        body_hash := some (lit "x"), title_hash := some (lit "ab") } }

/-- Configuration with mirror creation enabled on the GitHub side and
both filters at their defaults. -/
def c10Cfg : JirahubConfig :=
  { jira := { server := lit "s", project_key := lit "P" }
    github := { repository := lit "R", sync := { create_issues := true } } }

/-- Engine context for the closed-issue scenario. -/
def c10Ctx : SyncCtx :=
  { cfg := c10Cfg, hash_str := idHash, fmt_link := fmtLinkC, fmt_body := fmtBodyC
    url_quote := id }

/-- A closed JIRA issue with no counterpart. -/
def c10Issue : Issue :=
  { source := .JIRA, is_bot := false, issue_id := .jiraKey (lit "P-9")
    project := lit "P", created_at := 0, updated_at := 1, user := jiraUser
    title := lit "closed one", is_open := false }

/-- World holding only the closed issue. -/
def c10World : World := ⟨[c10Issue], [], 5, 1000, 1000⟩

/-- An issue whose linkage metadata points at a GitHub issue that no
longer exists: processing it raises (`get_issue` fails). -/
def c2Bad : Issue :=
  { source := .JIRA, is_bot := false, issue_id := .jiraKey (lit "P-2")
    project := lit "P", created_at := 0, updated_at := 2, user := jiraUser
    title := lit "bad", is_open := true
    metadata := { mirror_id := some (.ghNum 99), mirror_project := some (lit "R") } }

/-- World in which the first discovered issue raises and a second,
healthy issue follows it. -/
def c2World : World := ⟨[c2Bad, c10Issue], [], 5, 1000, 1000⟩

/-- A span-producing matcher for the redaction witness: one span
covering the whole text, as `.+` yields on newline-free input. -/
def c7Matcher : Matcher := fun t => if t.isEmpty then [] else [(0, t.length)]

/-- Decidable equality of exception results, for evaluating concrete
runs. -/
instance {ε α : Type} [DecidableEq ε] [DecidableEq α] : DecidableEq (Except ε α) := fun a b =>
  match a, b with
  | .ok x, .ok y =>
    if h : x = y then isTrue (by rw [h]) else isFalse (by intro hc; cases hc; exact h rfl)
  | .error x, .error y =>
    if h : x = y then isTrue (by rw [h]) else isFalse (by intro hc; cases hc; exact h rfl)
  | .ok _, .error _ => isFalse (by intro hc; cases hc)
  | .error _, .ok _ => isFalse (by intro hc; cases hc)

/-! ## Helper lemmas on the effect monad and the sync loop -/

theorem syncm_bind_run {α β : Type} (m : SyncM α) (f : α → SyncM β) (w : World) :
    (m >>= f) w =
      match m w with
      | ⟨.ok a, w1, t1⟩ => ⟨(f a w1).res, (f a w1).world, t1 ++ (f a w1).trace⟩
      | ⟨.error e, w1, t1⟩ => ⟨.error e, w1, t1⟩ := rfl

theorem attempt_run {α : Type} (m : SyncM α) (w : World) :
    attempt m w =
      ⟨.ok (match (m w).res with | .ok a => some a | .error _ => none),
        (m w).world, (m w).trace⟩ := by
  unfold attempt
  cases hm : m w with
  | mk res w1 t1 => cases res <;> rfl

theorem perform_sync_loop_res_ok (ctx : SyncCtx) (issues : List Issue) :
    ∀ (seen : List (Source × IssueId)) (w : World),
      (ctx.perform_sync_loop issues seen w).res = .ok () := by
  induction issues with
  | nil => intro seen w; rfl
  | cons i rest ih =>
    intro seen w
    unfold SyncCtx.perform_sync_loop
    by_cases h : seenKey i ∈ seen
    · simp only [if_pos h]; exact ih seen w
    · simp only [if_neg h]
      rw [syncm_bind_run, attempt_run]
      cases hres : (ctx.perform_sync_issue i w).res with
      | error e => simp only []; exact ih seen _
      | ok r =>
        cases r with
        | none => simp only []; exact ih _ _
        | some o => simp only []; exact ih _ _

theorem perform_sync_loop_continue_after_error (ctx : SyncCtx) (i : Issue)
    (rest : List Issue) (seen : List (Source × IssueId)) (w : World)
    (hseen : seenKey i ∉ seen)
    (herr : (ctx.perform_sync_issue i w).res = .error ()) :
    ctx.perform_sync_loop (i :: rest) seen w =
      ⟨(ctx.perform_sync_loop rest seen (ctx.perform_sync_issue i w).world).res,
       (ctx.perform_sync_loop rest seen (ctx.perform_sync_issue i w).world).world,
       (ctx.perform_sync_issue i w).trace ++
         (ctx.perform_sync_loop rest seen (ctx.perform_sync_issue i w).world).trace⟩ := by
  conv_lhs => unfold SyncCtx.perform_sync_loop
  simp only [if_neg hseen]
  rw [syncm_bind_run, attempt_run, herr]

/-! ## Claim C1 -/

/-- Claim C1 (code_bug evidence): the claim says `perform_sync`
accepts a `retry_issues` list of previously failed issues and returns
the set of `(source, issue_id)` pairs whose processing raised, for the
caller to persist.  In the code (`jirahub.py` lines 106-123),
`perform_sync` takes only the `min_updated_at` watermark — there is no
retry parameter in the embedding's signature — and its body has no
`return` statement: for every context, watermark and world the call
completes with the bare `None` value (here `Except.ok ()`), carrying
no failed set at all, even when processing of some issue raised.  The
repository's own caller (`command_line.py` line 112, which passes
`retry_issues=` and consumes the result) and its test suite
(`test_perform_sync_exception_raised_by_issue`) both require the
claimed behaviour. -/
theorem perform_sync_returns_only_none (ctx : SyncCtx) (min_updated_at : Option Nat)
    (w : World) : (ctx.perform_sync min_updated_at w).res = .ok () := by
  unfold SyncCtx.perform_sync
  rw [syncm_bind_run]
  simp only [SyncCtx.find_updated_issues]
  exact perform_sync_loop_res_ok ctx _ _ _

/-! ## Claim C2 -/

/-- Claim C2 (confirmed): if processing of one discovered issue raises
(the per-issue computation ends in `Except.error`), the `perform_sync`
loop catches it: the run keeps the side effects made before the raise,
does not extend the `seen` set, and continues with the remaining
discovery sequence from the resulting world exactly as it would have;
moreover no exception ever propagates out of the loop — its result is
always `Except.ok ()`. -/
theorem perform_sync_isolates_issue_failures (ctx : SyncCtx) (i : Issue)
    (rest : List Issue) (seen : List (Source × IssueId)) (w : World)
    (hseen : seenKey i ∉ seen)
    (herr : (ctx.perform_sync_issue i w).res = .error ()) :
    (ctx.perform_sync_loop (i :: rest) seen w =
      ⟨(ctx.perform_sync_loop rest seen (ctx.perform_sync_issue i w).world).res,
       (ctx.perform_sync_loop rest seen (ctx.perform_sync_issue i w).world).world,
       (ctx.perform_sync_issue i w).trace ++
         (ctx.perform_sync_loop rest seen (ctx.perform_sync_issue i w).world).trace⟩) ∧
    (∀ (issues : List Issue) (seen' : List (Source × IssueId)) (w' : World),
      (ctx.perform_sync_loop issues seen' w').res = .ok ()) := by
  refine ⟨perform_sync_loop_continue_after_error ctx i rest seen w hseen herr, ?_⟩
  intro issues seen' w'
  exact perform_sync_loop_res_ok ctx issues seen' w'

/-- Witness for claim C2: in `c2World` the first discovered issue
`c2Bad` points at a missing GitHub issue, so its processing raises;
the theorem applies and the loop still processes the rest of the
sequence and completes normally. -/
theorem perform_sync_isolates_issue_failures_witness :
    c10Ctx.perform_sync_loop [c2Bad, c10Issue] [] c2World =
      ⟨(c10Ctx.perform_sync_loop [c10Issue] []
          (c10Ctx.perform_sync_issue c2Bad c2World).world).res,
       (c10Ctx.perform_sync_loop [c10Issue] []
          (c10Ctx.perform_sync_issue c2Bad c2World).world).world,
       (c10Ctx.perform_sync_issue c2Bad c2World).trace ++
         (c10Ctx.perform_sync_loop [c10Issue] []
            (c10Ctx.perform_sync_issue c2Bad c2World).world).trace⟩ :=
  (perform_sync_isolates_issue_failures c10Ctx c2Bad [c10Issue] [] c2World
    (by decide) (by decide)).1

/-! ## Claim C3 -/

/-- Claim C3 (code_bug evidence): idempotent convergence fails.  In
`c3World` a human comment was edited after its mirror comment was
created, so the mirror's stored `body_hash` is stale.  The first
`perform_sync` run updates the mirror comment — but the update dict it
sends (`sync_comments`, jirahub.py line 350) contains only `body` and
never a refreshed `body_hash`, although the analogous issue-level code
(lines 218-229) does refresh the stored hashes.  The second run,
with no intervening external change, therefore sees the same hash
mismatch and issues the identical mutating `update_comment` call
again, contradicting the claimed zero-additional-calls property (and
the spec's §5/§8 idempotence requirement). -/
theorem perform_sync_second_run_repeats_comment_update :
    (c3Run1.trace.filter ClientCall.isMutating =
      [ClientCall.update_comment .GITHUB 4 c3UpdFields]) ∧
    (c3Run2.trace.filter ClientCall.isMutating =
      [ClientCall.update_comment .GITHUB 4 c3UpdFields]) := by
  decide

/-! ## Claim C10 -/

/-- Claim C10 (confirmed): under the default filter configuration
(`open_only` defaults to `True`, no other filter option set) a closed
issue is rejected by `accept_issue`; consequently a closed issue with
no counterpart (no truthy `mirror_id` or `github_issue_id`) is skipped
by `_perform_sync_issue` with no client call and no state change, even
when `CREATE_ISSUES` is enabled on the opposite side. -/
theorem closed_issue_not_mirrored_under_default_filter (ctx : SyncCtx) (issue : Issue)
    (w : World)
    (hfilter : (ctx.cfg.get_source_config issue.source.other).filter = {})
    (hclosed : issue.is_open = false)
    (hnomirror : optIdTruthy issue.mirror_id = false)
    (hnoghid : optNatTruthy issue.github_issue_id = false) :
    issue_filter_accept {} issue = false ∧
    (ctx.perform_sync_issue issue w).res = .ok none ∧
    (ctx.perform_sync_issue issue w).world = w ∧
    (ctx.perform_sync_issue issue w).trace = [] := by
  have haccept : issue_filter_accept {} issue = false := by
    unfold issue_filter_accept
    simp [hclosed]
  refine ⟨haccept, ?_⟩
  have haccept2 : ctx.accept_issue issue.source.other issue = false := by
    unfold SyncCtx.accept_issue
    rw [hfilter]
    exact haccept
  unfold SyncCtx.perform_sync_issue
  rw [hnomirror, hnoghid]
  simp only [Bool.or_self, Bool.false_eq_true, if_false, haccept2, Bool.and_false,
    ite_false]
  exact ⟨rfl, rfl, rfl⟩

/-- Witness for claim C10: the closed issue `c10Issue` in `c10World`,
with `CREATE_ISSUES` enabled on the GitHub side, is rejected by the
default filter and produces no client call. -/
theorem closed_issue_not_mirrored_under_default_filter_witness :
    issue_filter_accept {} c10Issue = false ∧
    (c10Ctx.perform_sync_issue c10Issue c10World).res = .ok none ∧
    (c10Ctx.perform_sync_issue c10Issue c10World).world = c10World ∧
    (c10Ctx.perform_sync_issue c10Issue c10World).trace = [] :=
  closed_issue_not_mirrored_under_default_filter c10Ctx c10Issue c10World
    (by decide) (by decide) (by decide) (by decide)

/-! ## Helper lemmas on the update computation -/

theorem miu_via_assemble (ctx : SyncCtx) (i1 i2 : Issue) (u1 u2 : IssueFields)
    (h : ctx.make_issue_updates i1 i2 = some (u1, u2)) :
    ∃ mp, ctx.mirror_content_updates i1 i2 = some mp ∧
      (u1, u2) = ctx.assemble_issue_updates i1 i2 mp := by
  unfold SyncCtx.make_issue_updates at h
  rcases Option.bind_eq_some.mp h with ⟨mp, hmp, hf⟩
  exact ⟨mp, hmp, (Option.some.inj hf).symm⟩

theorem assemble_merge_fields (ctx : SyncCtx) (i1 i2 : Issue) (mp : IssueFields) :
    (((ctx.assemble_issue_updates i1 i2 mp).1.is_open,
      (ctx.assemble_issue_updates i1 i2 mp).2.is_open) =
      make_field_updates (ctx.enabled i1.source .SYNC_STATUS)
        (ctx.enabled i2.source .SYNC_STATUS)
        i1.is_open i2.is_open i1.updated_at i2.updated_at) ∧
    (((ctx.assemble_issue_updates i1 i2 mp).1.milestones,
      (ctx.assemble_issue_updates i1 i2 mp).2.milestones) =
      make_field_updates (ctx.enabled i1.source .SYNC_MILESTONES)
        (ctx.enabled i2.source .SYNC_MILESTONES)
        i1.milestones i2.milestones i1.updated_at i2.updated_at) ∧
    (((ctx.assemble_issue_updates i1 i2 mp).1.labels,
      (ctx.assemble_issue_updates i1 i2 mp).2.labels) =
      ctx.make_labels_updates i1 i2) := by
  by_cases hs : i1.source = Source.JIRA <;> simp [SyncCtx.assemble_issue_updates, hs]

theorem assemble_title_body (ctx : SyncCtx) (i1 i2 : Issue) (mp : IssueFields) :
    ((ctx.assemble_issue_updates i1 i2 mp).1.title,
     (ctx.assemble_issue_updates i1 i2 mp).1.body,
     (ctx.assemble_issue_updates i1 i2 mp).2.title,
     (ctx.assemble_issue_updates i1 i2 mp).2.body) =
      (if i1.is_bot then (mp.title, mp.body, none, none)
       else (none, none, mp.title, mp.body)) := by
  by_cases hb : i1.is_bot <;> by_cases hs : i1.source = Source.JIRA <;>
    simp [SyncCtx.assemble_issue_updates, hb, hs]

theorem mirror_content_char (ctx : SyncCtx) (i1 i2 : Issue) (mp : IssueFields)
    (hbot : i1.is_bot || i2.is_bot)
    (h : ctx.mirror_content_updates i1 i2 = some mp) :
    mp.title =
      (if (if i1.is_bot then i1 else i2).title_hash ctx.hash_str ≠
          (if i1.is_bot then i2 else i1).title_hash ctx.hash_str then
        some (ctx.make_mirror_issue_title (if i1.is_bot then i2 else i1))
      else none) ∧
    mp.body =
      (if (if i1.is_bot then i1 else i2).body_hash ctx.hash_str ≠
          (if i1.is_bot then i2 else i1).body_hash ctx.hash_str then
        some (ctx.make_mirror_issue_body (if i1.is_bot then i2 else i1))
      else none) := by
  unfold SyncCtx.mirror_content_updates at h
  rw [if_pos hbot] at h
  rcases Option.bind_eq_some.mp h with ⟨mth, hmth, h⟩
  rcases Option.bind_eq_some.mp h with ⟨sth, hsth, h⟩
  rcases Option.bind_eq_some.mp h with ⟨mbh, hmbh, h⟩
  rcases Option.bind_eq_some.mp h with ⟨sbh, hsbh, h⟩
  replace h := (Option.some.inj h).symm
  subst h
  rw [hmth, hsth, hmbh, hsbh]
  by_cases hts : mth = sth <;> by_cases hbs : mbh = sbh <;> simp [hts, hbs]

theorem make_labels_updates_superset (ctx : SyncCtx) (i1 i2 : Issue) :
    (∀ L, (ctx.make_labels_updates i1 i2).1 = some L →
      (ctx.cfg.get_source_config i1.source).sync.labels ⊆ L) ∧
    (∀ L, (ctx.make_labels_updates i1 i2).2 = some L →
      (ctx.cfg.get_source_config i2.source).sync.labels ⊆ L) := by
  constructor <;> intro L hL <;> unfold SyncCtx.make_labels_updates at hL <;>
    simp only [] at hL <;> split_ifs at hL <;>
    first
      | (have e := Option.some.inj hL; subst e; exact Finset.subset_union_right)
      | (cases hL)

theorem make_mirror_issue_sticky (ctx : SyncCtx) (src : Issue) (f : IssueFields)
    (h : ctx.make_mirror_issue src = some f) :
    (ctx.cfg.get_source_config src.source.other).sync.labels ⊆ f.labels.getD ∅ := by
  unfold SyncCtx.make_mirror_issue at h
  rcases Option.bind_eq_some.mp h with ⟨bh, hbh, h⟩
  rcases Option.bind_eq_some.mp h with ⟨th, hth, h⟩
  replace h := (Option.some.inj h).symm
  subst h
  simp only [apply_ite IssueFields.labels, ite_self]
  by_cases hsync : (ctx.cfg.get_source_config src.source.other).sync.labels ≠ ∅
  · rw [if_pos hsync, Option.getD_some]
    exact Finset.subset_union_right
  · rw [not_ne_iff] at hsync
    rw [hsync]
    exact Finset.empty_subset _

theorem make_field_updates_policy {α : Type} [DecidableEq α] (e1 e2 : Bool)
    (v1 v2 : α) (t1 t2 : Nat) :
    (v1 = v2 → make_field_updates e1 e2 v1 v2 t1 t2 = (none, none)) ∧
    (e1 = true → e2 = true → v1 ≠ v2 → t1 ≠ t2 →
      make_field_updates e1 e2 v1 v2 t1 t2 =
        if t1 < t2 then (some v2, none) else (none, some v1)) ∧
    (e1 = true → e2 = false → v1 ≠ v2 →
      make_field_updates e1 e2 v1 v2 t1 t2 = (some v2, none)) ∧
    (e1 = false → e2 = true → v1 ≠ v2 →
      make_field_updates e1 e2 v1 v2 t1 t2 = (none, some v1)) := by
  refine ⟨?_, ?_, ?_, ?_⟩
  · intro hv
    unfold make_field_updates
    simp [hv]
  · intro he1 he2 hv ht
    unfold make_field_updates
    simp only [he1, he2, Bool.or_self, Bool.and_self, if_true, hv, ite_true,
      ne_eq, not_false_iff]
    by_cases hlt : t1 < t2
    · rw [if_neg (by omega), if_pos hlt]
    · rw [if_pos (by omega), if_neg hlt]
  · intro he1 he2 hv
    unfold make_field_updates
    simp [he1, he2, hv]
  · intro he1 he2 hv
    unfold make_field_updates
    simp [he1, he2, hv]

/-! ## Claim C4 -/

/-- Claim C4 (confirmed): the status and milestone merge policy of
`make_issue_updates`.  For `is_open` and for `milestones`: equal
values produce no update on either side; with the sync feature enabled
on both sides, differing values and differing `updated_at`, only the
issue with the older `updated_at` receives an update, carrying the
newer issue's value; with the feature enabled on exactly one side and
differing values, that side receives the other side's value regardless
of the timestamps. -/
theorem field_merge_policy (ctx : SyncCtx) (i1 i2 : Issue) (u1 u2 : IssueFields)
    (h : ctx.make_issue_updates i1 i2 = some (u1, u2)) :
    ((i1.is_open = i2.is_open → u1.is_open = none ∧ u2.is_open = none) ∧
     (ctx.enabled i1.source .SYNC_STATUS = true → ctx.enabled i2.source .SYNC_STATUS = true →
       i1.is_open ≠ i2.is_open → i1.updated_at ≠ i2.updated_at →
       (if i1.updated_at < i2.updated_at
        then u1.is_open = some i2.is_open ∧ u2.is_open = none
        else u2.is_open = some i1.is_open ∧ u1.is_open = none)) ∧
     (ctx.enabled i1.source .SYNC_STATUS = true → ctx.enabled i2.source .SYNC_STATUS = false →
       i1.is_open ≠ i2.is_open → u1.is_open = some i2.is_open ∧ u2.is_open = none) ∧
     (ctx.enabled i1.source .SYNC_STATUS = false → ctx.enabled i2.source .SYNC_STATUS = true →
       i1.is_open ≠ i2.is_open → u2.is_open = some i1.is_open ∧ u1.is_open = none)) ∧
    ((i1.milestones = i2.milestones → u1.milestones = none ∧ u2.milestones = none) ∧
     (ctx.enabled i1.source .SYNC_MILESTONES = true →
       ctx.enabled i2.source .SYNC_MILESTONES = true →
       i1.milestones ≠ i2.milestones → i1.updated_at ≠ i2.updated_at →
       (if i1.updated_at < i2.updated_at
        then u1.milestones = some i2.milestones ∧ u2.milestones = none
        else u2.milestones = some i1.milestones ∧ u1.milestones = none)) ∧
     (ctx.enabled i1.source .SYNC_MILESTONES = true →
       ctx.enabled i2.source .SYNC_MILESTONES = false →
       i1.milestones ≠ i2.milestones → u1.milestones = some i2.milestones ∧ u2.milestones = none) ∧
     (ctx.enabled i1.source .SYNC_MILESTONES = false →
       ctx.enabled i2.source .SYNC_MILESTONES = true →
       i1.milestones ≠ i2.milestones → u2.milestones = some i1.milestones ∧ u1.milestones = none)) := by
  rcases miu_via_assemble ctx i1 i2 u1 u2 h with ⟨mp, hmp, he⟩
  have hm := assemble_merge_fields ctx i1 i2 mp
  rw [← he] at hm
  obtain ⟨hopen, hmiles, _⟩ := hm
  have hopen1 := congrArg Prod.fst hopen
  have hopen2 := congrArg Prod.snd hopen
  have hmiles1 := congrArg Prod.fst hmiles
  have hmiles2 := congrArg Prod.snd hmiles
  simp only [] at hopen1 hopen2 hmiles1 hmiles2
  obtain ⟨po1, po2, po3, po4⟩ :=
    make_field_updates_policy (ctx.enabled i1.source .SYNC_STATUS)
      (ctx.enabled i2.source .SYNC_STATUS) i1.is_open i2.is_open i1.updated_at i2.updated_at
  obtain ⟨pm1, pm2, pm3, pm4⟩ :=
    make_field_updates_policy (ctx.enabled i1.source .SYNC_MILESTONES)
      (ctx.enabled i2.source .SYNC_MILESTONES) i1.milestones i2.milestones
      i1.updated_at i2.updated_at
  refine ⟨⟨?_, ?_, ?_, ?_⟩, ⟨?_, ?_, ?_, ?_⟩⟩
  · intro hv
    rw [po1 hv] at hopen1 hopen2
    exact ⟨hopen1, hopen2⟩
  · intro he1 he2 hv ht
    rw [po2 he1 he2 hv ht] at hopen1 hopen2
    by_cases hlt : i1.updated_at < i2.updated_at
    · rw [if_pos hlt]
      rw [if_pos hlt] at hopen1 hopen2
      exact ⟨hopen1, hopen2⟩
    · rw [if_neg hlt]
      rw [if_neg hlt] at hopen1 hopen2
      exact ⟨hopen2, hopen1⟩
  · intro he1 he2 hv
    rw [po3 he1 he2 hv] at hopen1 hopen2
    exact ⟨hopen1, hopen2⟩
  · intro he1 he2 hv
    rw [po4 he1 he2 hv] at hopen1 hopen2
    exact ⟨hopen2, hopen1⟩
  · intro hv
    rw [pm1 hv] at hmiles1 hmiles2
    exact ⟨hmiles1, hmiles2⟩
  · intro he1 he2 hv ht
    rw [pm2 he1 he2 hv ht] at hmiles1 hmiles2
    by_cases hlt : i1.updated_at < i2.updated_at
    · rw [if_pos hlt]
      rw [if_pos hlt] at hmiles1 hmiles2
      exact ⟨hmiles1, hmiles2⟩
    · rw [if_neg hlt]
      rw [if_neg hlt] at hmiles1 hmiles2
      exact ⟨hmiles2, hmiles1⟩
  · intro he1 he2 hv
    rw [pm3 he1 he2 hv] at hmiles1 hmiles2
    exact ⟨hmiles1, hmiles2⟩
  · intro he1 he2 hv
    rw [pm4 he1 he2 hv] at hmiles1 hmiles2
    exact ⟨hmiles2, hmiles1⟩

/-- Witness for claim C4: `make_issue_updates` succeeds on the linked
pair `c3IssueJ`/`c3IssueG` (whose statuses agree), and the equal-value
clause yields no status update on either side. -/
theorem field_merge_policy_witness :
    c3IssueJ.is_open = c3IssueG.is_open ∧
    ((c3Ctx.make_issue_updates c3IssueJ c3IssueG).getD ({}, {})).1.is_open = none ∧
    ((c3Ctx.make_issue_updates c3IssueJ c3IssueG).getD ({}, {})).2.is_open = none :=
  ⟨by decide,
    (field_merge_policy c3Ctx c3IssueJ c3IssueG
      ((c3Ctx.make_issue_updates c3IssueJ c3IssueG).getD ({}, {})).1
      ((c3Ctx.make_issue_updates c3IssueJ c3IssueG).getD ({}, {})).2
      (by decide)).1.1 (by decide)⟩

/-! ## Claim C5 -/

/-- Claim C5 (confirmed): sticky labels are always retained.  Whenever
`make_issue_updates` produces a `"labels"` value for a side, that
value is a superset of the side's configured sync labels, and every
mirror issue dict built by `make_mirror_issue` carries the mirror
side's configured sync labels (trivially so when that set is empty and
no labels key is produced). -/
theorem sticky_labels_always_retained (ctx : SyncCtx) (i1 i2 src : Issue)
    (u1 u2 f : IssueFields)
    (h1 : ctx.make_issue_updates i1 i2 = some (u1, u2))
    (h2 : ctx.make_mirror_issue src = some f) :
    (∀ L, u1.labels = some L → (ctx.cfg.get_source_config i1.source).sync.labels ⊆ L) ∧
    (∀ L, u2.labels = some L → (ctx.cfg.get_source_config i2.source).sync.labels ⊆ L) ∧
    (ctx.cfg.get_source_config src.source.other).sync.labels ⊆ f.labels.getD ∅ := by
  rcases miu_via_assemble ctx i1 i2 u1 u2 h1 with ⟨mp, hmp, he⟩
  have hm := (assemble_merge_fields ctx i1 i2 mp).2.2
  rw [← he] at hm
  have hl1 := congrArg Prod.fst hm
  have hl2 := congrArg Prod.snd hm
  simp only [] at hl1 hl2
  obtain ⟨p1, p2⟩ := make_labels_updates_superset ctx i1 i2
  refine ⟨?_, ?_, make_mirror_issue_sticky ctx src f h2⟩
  · intro L hL
    exact p1 L (hl1 ▸ hL)
  · intro L hL
    exact p2 L (hl2 ▸ hL)

/-- Witness for claim C5: instantiated on the linked pair and on a
mirror of `c3IssueJ`; the mirror's labels dict contains the GitHub
side's configured sync labels. -/
theorem sticky_labels_always_retained_witness :
    (c3Ctx.cfg.get_source_config c3IssueJ.source.other).sync.labels ⊆
      (((c3Ctx.make_mirror_issue c3IssueJ).getD {}).labels).getD ∅ :=
  (sticky_labels_always_retained c3Ctx c3IssueJ c3IssueG c3IssueJ
    ((c3Ctx.make_issue_updates c3IssueJ c3IssueG).getD ({}, {})).1
    ((c3Ctx.make_issue_updates c3IssueJ c3IssueG).getD ({}, {})).2
    ((c3Ctx.make_mirror_issue c3IssueJ).getD {})
    (by decide) (by decide)).2.2

/-! ## Claim C6 -/

/-- Claim C6 counterexample: the claim says a title/body key is placed
in the bot-owned mirror's update dict exactly when the freshly
recomputed mirror title/body differs from the mirror's current value
(string comparison).  In the `c6` scenario the source title was edited
from `"aa"` to `"ab"`, but a redaction pattern maps both to the same
mirror title `"██"`: the recomputed mirror title equals the mirror's
current title, yet `make_issue_updates` still places a `"title"` key
(the code compares stored source-content hashes, not recomputed
strings). -/
theorem mirror_title_update_without_text_change :
    c6Ctx.make_issue_updates c6Src c6Mirror = some ({}, c6U2) ∧
    c6U2.title = some (c6Ctx.make_mirror_issue_title c6Src) ∧
    c6Ctx.make_mirror_issue_title c6Src = c6Mirror.title ∧
    c6Src.is_bot = false ∧ c6Mirror.is_bot = true := by
  decide

/-- Claim C6 as amended (corrected): for a matched pair with at least
one bot, `make_issue_updates` never places a title or body key in a
non-bot side's update dict; and the bot-owned mirror's dict receives a
title (resp. body) key exactly when the mirror's stored
`title_hash`/`body_hash` (the digest of the source content at last
sync) differs from the digest of the source issue's current title
(resp. body) — not when the recomputed mirror text differs from the
mirror's current text — the value written being the freshly recomputed
mirror title (resp. body). -/
theorem title_body_flow_gated_by_source_hash (ctx : SyncCtx) (i1 i2 : Issue)
    (u1 u2 : IssueFields)
    (hbot : (i1.is_bot || i2.is_bot) = true)
    (h : ctx.make_issue_updates i1 i2 = some (u1, u2)) :
    (i1.is_bot = false → u1.title = none ∧ u1.body = none) ∧
    (i2.is_bot = false → u2.title = none ∧ u2.body = none) ∧
    ((if i1.is_bot then u1 else u2).title =
      (if (if i1.is_bot then i1 else i2).title_hash ctx.hash_str ≠
          (if i1.is_bot then i2 else i1).title_hash ctx.hash_str then
        some (ctx.make_mirror_issue_title (if i1.is_bot then i2 else i1))
      else none)) ∧
    ((if i1.is_bot then u1 else u2).body =
      (if (if i1.is_bot then i1 else i2).body_hash ctx.hash_str ≠
          (if i1.is_bot then i2 else i1).body_hash ctx.hash_str then
        some (ctx.make_mirror_issue_body (if i1.is_bot then i2 else i1))
      else none)) := by
  rcases miu_via_assemble ctx i1 i2 u1 u2 h with ⟨mp, hmp, he⟩
  have htb := assemble_title_body ctx i1 i2 mp
  rw [← he] at htb
  obtain ⟨hmt, hmb⟩ := mirror_content_char ctx i1 i2 mp hbot hmp
  by_cases hb : i1.is_bot
  · rw [if_pos hb] at htb
    have e1 := congrArg (fun q => q.1) htb
    have e2 := congrArg (fun q => q.2.1) htb
    have e3 := congrArg (fun q => q.2.2.1) htb
    have e4 := congrArg (fun q => q.2.2.2) htb
    simp only [] at e1 e2 e3 e4
    refine ⟨fun hc => absurd hb (by simp [hc]), fun _ => ⟨e3, e4⟩, ?_, ?_⟩
    · rw [if_pos hb, e1, hmt]
    · rw [if_pos hb, e2, hmb]
  · rw [if_neg hb] at htb
    have e1 := congrArg (fun q => q.1) htb
    have e2 := congrArg (fun q => q.2.1) htb
    have e3 := congrArg (fun q => q.2.2.1) htb
    have e4 := congrArg (fun q => q.2.2.2) htb
    simp only [] at e1 e2 e3 e4
    refine ⟨fun _ => ⟨e1, e2⟩, ?_, ?_, ?_⟩
    · intro hc
      have : i2.is_bot = true := by
        cases h1 : i1.is_bot <;> cases h2 : i2.is_bot <;> simp_all
      rw [this] at hc
      cases hc
    · rw [if_neg hb, e3, hmt]
    · rw [if_neg hb, e4, hmb]

/-- Witness for the amended claim C6: in the `c6` scenario the
non-bot source issue's dict receives no title or body, and the mirror
dict's title presence follows the stored-hash comparison. -/
theorem title_body_flow_gated_by_source_hash_witness :
    (({} : IssueFields).title = none ∧ ({} : IssueFields).body = none) ∧
    c6U2.title =
      (if c6Mirror.title_hash c6Ctx.hash_str ≠ c6Src.title_hash c6Ctx.hash_str then
        some (c6Ctx.make_mirror_issue_title c6Src)
      else none) := by
  have := title_body_flow_gated_by_source_hash c6Ctx c6Src c6Mirror {} c6U2
    (by decide) (by decide)
  exact ⟨this.1 (by decide), this.2.2.1⟩

/-! ## Helper lemmas on redaction -/

theorem replaceSpan_length (t : Str) (sp : Nat × Nat)
    (h1 : sp.1 ≤ sp.2) (h2 : sp.2 ≤ t.length) :
    (replaceSpan t sp).length = t.length := by
  simp only [replaceSpan, List.length_append, List.length_take, List.length_replicate,
    List.length_drop]
  omega

theorem replaceSpan_get (t : Str) (sp : Nat × Nat) (i : Nat)
    (h1 : sp.1 ≤ sp.2) (h2 : sp.2 ≤ t.length) :
    (replaceSpan t sp)[i]? =
      if sp.1 ≤ i ∧ i < sp.2 then some blockChar else t[i]? := by
  unfold replaceSpan
  rw [List.getElem?_append, List.getElem?_append]
  simp only [List.length_append, List.length_take, List.length_replicate,
    List.getElem?_take, List.getElem?_replicate, List.getElem?_drop]
  split_ifs <;> first | rfl | omega | (congr 1; omega)

theorem redactPass_length (spans : List (Nat × Nat)) :
    ∀ (t : Str), (∀ sp ∈ spans, sp.1 ≤ sp.2 ∧ sp.2 ≤ t.length) →
      (redactPass spans t).length = t.length := by
  induction spans with
  | nil => intro t _; rfl
  | cons sp rest ih =>
    intro t hb
    have hsp := hb sp (List.mem_cons_self sp rest)
    have hlen := replaceSpan_length t sp hsp.1 hsp.2
    have hstep : redactPass (sp :: rest) t = redactPass rest (replaceSpan t sp) := rfl
    rw [hstep, ih (replaceSpan t sp)
      (fun q hq => by rw [hlen]; exact hb q (List.mem_cons_of_mem sp hq)), hlen]

theorem redactPass_get (spans : List (Nat × Nat)) :
    ∀ (t : Str) (i : Nat), (∀ sp ∈ spans, sp.1 ≤ sp.2 ∧ sp.2 ≤ t.length) →
      (redactPass spans t)[i]? =
        if inSpans spans i then some blockChar else t[i]? := by
  induction spans with
  | nil => intro t i _; rfl
  | cons sp rest ih =>
    intro t i hb
    have hsp := hb sp (List.mem_cons_self sp rest)
    have hlen := replaceSpan_length t sp hsp.1 hsp.2
    have hstep : redactPass (sp :: rest) t = redactPass rest (replaceSpan t sp) := rfl
    rw [hstep, ih (replaceSpan t sp) i
      (fun q hq => by rw [hlen]; exact hb q (List.mem_cons_of_mem sp hq))]
    rw [replaceSpan_get t sp i hsp.1 hsp.2]
    by_cases hrest : inSpans rest i
    · have hall : inSpans (sp :: rest) i = true := by
        simp [inSpans, List.any_cons] at hrest ⊢
        exact Or.inr hrest
      rw [if_pos hrest, if_pos hall]
    · by_cases hcov : sp.1 ≤ i ∧ i < sp.2
      · have hall : inSpans (sp :: rest) i = true := by
          simp [inSpans, List.any_cons]
          exact Or.inl (by omega)
        rw [if_neg (by simp [hrest]), if_pos hcov, if_pos hall]
      · have hall : inSpans (sp :: rest) i = false := by
          simp [inSpans, List.any_cons] at hrest ⊢
          constructor
          · omega
          · exact hrest
        rw [if_neg (by simp [hrest]), if_neg hcov, if_neg (by simp [hall])]

theorem inSpans_append (a b : List (Nat × Nat)) (i : Nat) :
    inSpans (a ++ b) i = (inSpans a i || inSpans b i) := by
  simp [inSpans, List.any_append]

theorem redactSpans_acc (ms : List Matcher) :
    ∀ (x : Str) (acc : List (Nat × Nat)),
      (ms.foldl (fun acc m =>
        let spans := m acc.1
        (redactPass spans acc.1, acc.2 ++ spans)) (x, acc)).2 =
      acc ++ (ms.foldl (fun acc m =>
        let spans := m acc.1
        (redactPass spans acc.1, acc.2 ++ spans)) (x, [])).2 := by
  induction ms with
  | nil => intro x acc; simp
  | cons m rest ih =>
    intro x acc
    simp only [List.foldl_cons]
    rw [ih (redactPass (m x) x) (acc ++ m x), ih (redactPass (m x) x) ([] ++ m x)]
    simp [List.append_assoc]

theorem redactSpans_cons (m : Matcher) (ms : List Matcher) (t : Str) :
    redactSpans (m :: ms) t = m t ++ redactSpans ms (redactPass (m t) t) := by
  unfold redactSpans
  simp only [List.foldl_cons]
  rw [redactSpans_acc]
  simp

theorem redact_core_blocks (ms : List Matcher) :
    ∀ t : Str, (∀ m ∈ ms, ∀ u : Str, ∀ sp ∈ m u, sp.1 ≤ sp.2 ∧ sp.2 ≤ u.length) →
      (redact_core ms t).length = t.length ∧
      (∀ i, inSpans (redactSpans ms t) i = true →
        (redact_core ms t)[i]? = some blockChar) ∧
      (∀ i, inSpans (redactSpans ms t) i = false →
        (redact_core ms t)[i]? = t[i]?) := by
  induction ms with
  | nil =>
    intro t _
    refine ⟨rfl, ?_, ?_⟩
    · intro i hi
      cases hi
    · intro i _
      rfl
  | cons m rest ih =>
    intro t hb
    have hbm : ∀ sp ∈ m t, sp.1 ≤ sp.2 ∧ sp.2 ≤ t.length :=
      fun sp hsp => hb m (List.mem_cons_self m rest) t sp hsp
    have hlen1 : (redactPass (m t) t).length = t.length := redactPass_length (m t) t hbm
    have hstep : redact_core (m :: rest) t = redact_core rest (redactPass (m t) t) := rfl
    obtain ⟨ihlen, ihblk, ihkeep⟩ :=
      ih (redactPass (m t) t) (fun q hq => hb q (List.mem_cons_of_mem m hq))
    refine ⟨by rw [hstep, ihlen, hlen1], ?_, ?_⟩
    · intro i hi
      rw [redactSpans_cons, inSpans_append] at hi
      rw [hstep]
      by_cases hr : inSpans (redactSpans rest (redactPass (m t) t)) i = true
      · exact ihblk i hr
      · have hr' : inSpans (redactSpans rest (redactPass (m t) t)) i = false := by
          simpa using hr
        have hmt : inSpans (m t) i = true := by
          cases hmt : inSpans (m t) i
          · exfalso
            rw [hmt, hr'] at hi
            cases hi
          · rfl
        rw [ihkeep i hr', redactPass_get (m t) t i hbm, if_pos hmt]
    · intro i hi
      rw [redactSpans_cons, inSpans_append, Bool.or_eq_false_iff] at hi
      rw [hstep, ihkeep i hi.2, redactPass_get (m t) t i hbm, if_neg (by simp [hi.1])]

/-! ## Claim C7 -/

/-- Claim C7 (confirmed): `redact_text` preserves length exactly, and
every character position is either part of a span matched by some
configured pattern during the run (in which case it holds the block
character U+2588) or is the unchanged original character at that same
position.  Patterns are modelled by their `finditer` span lists; the
hypothesis states what `finditer` guarantees, namely that each span is
well-formed and within the text it was computed on. -/
theorem redact_text_structure (ctx : SyncCtx) (s : Source) (t : Str)
    (hb : ∀ m ∈ (ctx.cfg.get_source_config s).sync.redact_regexes,
      ∀ u : Str, ∀ sp ∈ m u, sp.1 ≤ sp.2 ∧ sp.2 ≤ u.length) :
    (ctx.redact_text s t).length = t.length ∧
    (∀ i, inSpans (redactSpans (ctx.cfg.get_source_config s).sync.redact_regexes t) i = true →
      (ctx.redact_text s t)[i]? = some blockChar) ∧
    (∀ i, inSpans (redactSpans (ctx.cfg.get_source_config s).sync.redact_regexes t) i = false →
      (ctx.redact_text s t)[i]? = t[i]?) :=
  redact_core_blocks (ctx.cfg.get_source_config s).sync.redact_regexes t hb

/-- Witness for claim C7: the GitHub-side pattern of `c6Ctx` (a
whole-string matcher) applied to `"ab"`: the redacted text has the
same length, and both positions, being covered, hold the block
character. -/
theorem redact_text_structure_witness :
    (c6Ctx.redact_text .GITHUB (lit "ab")).length = (lit "ab").length ∧
    (c6Ctx.redact_text .GITHUB (lit "ab"))[0]? = some blockChar := by
  have hb : ∀ m ∈ (c6Ctx.cfg.get_source_config .GITHUB).sync.redact_regexes,
      ∀ u : Str, ∀ sp ∈ m u, sp.1 ≤ sp.2 ∧ sp.2 ≤ u.length := by
    intro m hm u sp hsp
    have hm2 : m ∈ [wholeMatcher] := hm
    have hme := List.mem_singleton.mp hm2
    subst hme
    unfold wholeMatcher at hsp
    by_cases he : u.isEmpty
    · rw [if_pos he] at hsp
      cases hsp
    · rw [if_neg he] at hsp
      have := List.mem_singleton.mp hsp
      subst this
      exact ⟨Nat.zero_le _, Nat.le_refl _⟩
  have h := redact_text_structure c6Ctx .GITHUB (lit "ab") hb
  exact ⟨h.1, h.2.1 0 (by decide)⟩

/-! ## Helper lemmas on region isolation -/

theorem foldl_append_bind {α β : Type} (g : α → List β) (rs : List α) :
    ∀ acc : List β, rs.foldl (fun acc r => acc ++ g r) acc = acc ++ rs.bind g := by
  induction rs with
  | nil => intro acc; simp
  | cons r rest ih =>
    intro acc
    simp only [List.foldl_cons, List.cons_bind]
    rw [ih]
    simp [List.append_assoc]

theorem isolate_regions_bind (rs : List (Str × Bool)) (o c : SearchFn) (h : Handler) :
    isolate_regions rs o c h =
      rs.bind (fun r =>
        if r.2 then isolateLoop o c h r.1 (r.1.length + 1) 0 else [r]) := by
  unfold isolate_regions
  have e : (fun (acc : List (Str × Bool)) (r : Str × Bool) =>
      if !r.2 then acc ++ [r] else acc ++ isolateLoop o c h r.1 (r.1.length + 1) 0) =
      (fun acc r => acc ++ (if r.2 then isolateLoop o c h r.1 (r.1.length + 1) 0 else [r])) := by
    funext acc r
    cases hr : r.2 <;> simp [hr]
  rw [e, foldl_append_bind]
  simp

theorem isolateLoop_eq_decomp (o c : SearchFn) (h : Handler) (content : Str) :
    ∀ (fuel cur : Nat),
      isolateLoop o c h content fuel cur =
        (regionDecomp o c content fuel cur).map (interpPiece h) := by
  intro fuel
  induction fuel with
  | zero => intro cur; rfl
  | succ n ih =>
    intro cur
    unfold isolateLoop regionDecomp
    by_cases hc : cur < content.length
    · rw [if_pos hc, if_pos hc]
      cases ho : o content cur with
      | none => rfl
      | some m =>
        simp only [List.map_append, List.map_cons, List.map_nil, ih]
        by_cases hpre : cur < m.mstart <;> simp [hpre, interpPiece]
    · rw [if_neg hc, if_neg hc]
      rfl

/-! ## Claim C9 -/

/-- Claim C9 counterexample: the claim says every matched span is
replaced by the handler's output region "flagged not formatted".  The
repository's own quoted-content handler
(`github.Formatter._handle_quoted_content`) returns its replacement
flagged formatted, and `isolate_regions` inserts that flag as-is: on
`"\x7bquote\x7dx\x7bquote\x7d"` the single output region is the
handler's rewritten text flagged `true`. -/
theorem quote_handler_region_stays_formatted :
    isolate_regions [(lit "\x7bquote\x7dx\x7bquote\x7d", true)]
      githubQuoteSearch githubQuoteSearch github_handle_quoted_content =
      [(lit "\n> x\n", true)] ∧
    lit "\n> x\n" ≠ lit "\x7bquote\x7dx\x7bquote\x7d" := by
  decide

/-- Claim C9 as amended (corrected): `isolate_regions` processes each
input region independently — regions flagged unformatted pass through
untouched, in place — and each formatted region is replaced by the
interpretation of a handler-independent decomposition: the text
before, between and after matches stays as formatted regions, and
every span matched between an open and a close pattern becomes exactly
the handler's output region, carrying whichever formatted flag the
handler returned (not necessarily "not formatted"). -/
theorem isolate_regions_contract (rs : List (Str × Bool)) (o c : SearchFn) (h : Handler) :
    (isolate_regions rs o c h =
      rs.bind (fun r =>
        if r.2 then isolateLoop o c h r.1 (r.1.length + 1) 0 else [r])) ∧
    (∀ (content : Str) (fuel cur : Nat),
      isolateLoop o c h content fuel cur =
        (regionDecomp o c content fuel cur).map (interpPiece h)) :=
  ⟨isolate_regions_bind rs o c h,
    fun content fuel cur => isolateLoop_eq_decomp o c h content fuel cur⟩

/-! ## Claim C8 -/

/-- Claim C8 counterexample: the claim says both formatters drop an
empty fenced block entirely, emitting the empty string.  The JIRA-side
formatter does not: its fence handler
(`jira.Formatter._handle_noformat_content`) has no empty-content
special case, so an empty GitHub code fence (six backticks) is
rewritten to an empty `\x7bnoformat\x7d` pair rather than dropped. -/
theorem jira_empty_fence_not_dropped :
    jira_format_body id (lit "``````") = lit "\x7bnoformat\x7d\x7bnoformat\x7d" ∧
    jira_format_body id (lit "``````") ≠ ([] : Str) := by
  decide

/-- Claim C8 as amended (corrected): fence edge cases of the two
`format_body` implementations.  The GitHub-side formatter drops an
empty `\x7bcode\x7d` or `\x7bnoformat\x7d` block entirely; the
JIRA-side formatter instead emits an empty fence pair
(`\x7bnoformat\x7d\x7bnoformat\x7d`, or `\x7bcode:lang\x7d\x7bcode\x7d`
when a language tag was captured); and an unterminated fence is
treated by both sides as if the block content extended to the end of
the string.  All equalities hold for every content-substitution
function `fc`. -/
theorem formatter_fence_edge_cases (fc : Str → Str) :
    github_format_body fc (lit "\x7bcode\x7d\x7bcode\x7d") = [] ∧
    github_format_body fc (lit "\x7bnoformat\x7d\x7bnoformat\x7d") = [] ∧
    jira_format_body fc (lit "``````") = lit "\x7bnoformat\x7d\x7bnoformat\x7d" ∧
    github_format_body fc (lit "\x7bcode\x7dxyz") = lit "```xyz```" ∧
    jira_format_body fc (lit "```abc\ncode") = lit "\x7bcode:abc\x7d\ncode\x7bcode\x7d" :=
  ⟨rfl, rfl, rfl, rfl, rfl⟩

end Jirahub
